import Mathlib

/-!
# Verification of the DynaDbg Linux debugger core

This file is a shallow embedding, in Lean 4, of the parts of the DynaDbg
Linux debugger (src/server/src/cpp/src/linux) that the specification's
claims talk about, together with theorems settling those claims.

Conventions of the embedding:
* The ARM64 (`__aarch64__`) build of the event-handling code is embedded;
  architecture-specific branches are noted in the doc comments.
* Machine integers (`uint64_t`, `long`, `int`) are modelled as `Nat` or
  `Int`; the embedded code never relies on overflow, and bit operations
  use Lean's `Nat` bitwise operators.
* ptrace calls are modelled as pure operations on an explicit world:
  reads/writes of a thread's registers and hardware debug registers act
  on a per-thread record, `PTRACE_PEEKDATA`/`POKEDATA` act on a partial
  word-indexed memory, and resume / single-step / notification calls are
  recorded in an ordered action trace.
* `std::vector` tables become `List`s, `std::map` / `std::set` become
  association lists / lists of keys.
-/

namespace DynaDbg

/-! ## Constants (src/linux/debugger.h, arch_defs.h, native_api.h) -/

/-- `Debugger::MAX_WATCHPOINTS` (debugger.h line 131): `1`, with the
source comment "Limited to 1 for stability". -/
def MAX_WATCHPOINTS : Nat := 1

/-- `Debugger::MAX_BREAKPOINTS` (debugger.h line 132). -/
def MAX_BREAKPOINTS : Nat := 4

/-- `Debugger::MAX_SOFTWARE_BREAKPOINTS` (debugger.h line 133). -/
def MAX_SOFTWARE_BREAKPOINTS : Nat := 1000000

/-- ARM64 breakpoint/watchpoint length encodings (arch_defs.h). -/
def ARM_BREAKPOINT_LEN_1 : Nat := 0x1
def ARM_BREAKPOINT_LEN_2 : Nat := 0x3
def ARM_BREAKPOINT_LEN_4 : Nat := 0xf
def ARM_BREAKPOINT_LEN_8 : Nat := 0xff

/-- ARM64 load/store control encodings (arch_defs.h). -/
def ARM_BREAKPOINT_EXECUTE : Nat := 0x0
def ARM_BREAKPOINT_LOAD : Nat := 0x1
def ARM_BREAKPOINT_STORE : Nat := 0x2
def ARM_BREAKPOINT_RW : Nat := ARM_BREAKPOINT_LOAD ||| ARM_BREAKPOINT_STORE

/-- x86_64 DR7 length encodings (arch_defs.h). -/
def X86_DR7_LEN_1 : Nat := 0
def X86_DR7_LEN_2 : Nat := 1
def X86_DR7_LEN_8 : Nat := 2
def X86_DR7_LEN_4 : Nat := 3

/-- Exception type constants (core/native_api.h `ExceptionType`). -/
def EXCEPTION_UNKNOWN : Nat := 0
def EXCEPTION_BREAKPOINT : Nat := 1
def EXCEPTION_WATCHPOINT : Nat := 2
def EXCEPTION_SINGLESTEP : Nat := 3
def EXCEPTION_SIGNAL : Nat := 4
def EXCEPTION_SIGSEGV : Nat := 5
def EXCEPTION_SIGBUS : Nat := 6
def EXCEPTION_SIGFPE : Nat := 7
def EXCEPTION_SIGILL : Nat := 8
def EXCEPTION_SIGABRT : Nat := 9

/-- Linux signal numbers used by the dispatcher (ARM64/x86_64 Linux). -/
def SIGILL_NUM : Int := 4
def SIGTRAP_NUM : Int := 5
def SIGABRT_NUM : Int := 6
def SIGBUS_NUM : Int := 7
def SIGFPE_NUM : Int := 8
def SIGSEGV_NUM : Int := 11
def SIGCONT_NUM : Int := 18
def SIGSTOP_NUM : Int := 19
def SIGTSTP_NUM : Int := 20
def SIGXCPU_NUM : Int := 24
def SIGPWR_NUM : Int := 30

/-- `PTRACE_EVENT_CLONE` (sys/ptrace.h). -/
def PTRACE_EVENT_CLONE : Nat := 3

/-- `PTRACE_EVENT_STOP` (arch_defs.h fallback definition). -/
def PTRACE_EVENT_STOP : Nat := 128

/-- `encode_ctrl_reg` (arch_defs.h lines 117-120):
`(mismatch << 22) | (len << 5) | (type << 3) | (privilege << 1) | enabled`. -/
def encode_ctrl_reg (mismatch len ty privilege enabled : Nat) : Nat :=
  (mismatch <<< 22) ||| (len <<< 5) ||| (ty <<< 3) ||| (privilege <<< 1) ||| enabled

/-! ## Basic enums (debugger_types.h, debugger.h) -/

/-- `WatchpointType` (debugger_types.h). -/
inductive WatchpointType
  | READ
  | WRITE
  | READWRITE
deriving DecidableEq, Repr

/-- `BreakpointType` (debugger_types.h). -/
inductive BreakpointType
  | HARDWARE
  | SOFTWARE
deriving DecidableEq, Repr

/-- `DebugState` (debugger_types.h). -/
inductive DebugState
  | Running
  | BreakpointHit
  | WatchpointHit
  | SingleStepping
  | Paused
deriving DecidableEq, Repr

/-- `Debugger::SingleStepMode` (debugger.h lines 139-147). -/
inductive SingleStepMode
  | None
  | Watchpoint
  | Breakpoint
  | HardwareBreakpointContinue
  | SoftwareBreakpoint
  | SoftwareBreakpointContinue
deriving DecidableEq, Repr

/-- Numeric value of a `SingleStepMode` as produced by the C++
`static_cast<uint64_t>` on the scoped enum (declaration order). -/
def SingleStepMode.toNat : SingleStepMode → Nat
  | .None => 0
  | .Watchpoint => 1
  | .Breakpoint => 2
  | .HardwareBreakpointContinue => 3
  | .SoftwareBreakpoint => 4
  | .SoftwareBreakpointContinue => 5

/-- `SignalConfig` (debugger_types.h lines 20-28); the default
constructor gives `catch=false, pass=false`. -/
structure SignalConfig where
  catch_signal : Bool
  pass_signal : Bool
deriving DecidableEq, Repr

/-! ## C7: watchpoint length encoding
(`Debugger::apply_watchpoint_to_threads`, debugger_watchpoint.cpp) -/

/-- ARM64 length selection (debugger_watchpoint.cpp lines 371-380):
`if (size <= 1) LEN_1; else if (size <= 2) LEN_2; else if (size <= 4)
LEN_4; else LEN_8`.  `size` is a C `int`, hence `Int` here. -/
def arm64_watchpoint_length (size : Int) : Nat :=
  if size ≤ 1 then ARM_BREAKPOINT_LEN_1
  else if size ≤ 2 then ARM_BREAKPOINT_LEN_2
  else if size ≤ 4 then ARM_BREAKPOINT_LEN_4
  else ARM_BREAKPOINT_LEN_8

/-- x86_64 length selection (debugger_watchpoint.cpp lines 436-445):
same threshold chain producing `X86_DR7_LEN_*`. -/
def x86_watchpoint_length (size : Int) : Nat :=
  if size ≤ 1 then X86_DR7_LEN_1
  else if size ≤ 2 then X86_DR7_LEN_2
  else if size ≤ 4 then X86_DR7_LEN_4
  else X86_DR7_LEN_8

/-! ## C8: spawned child exit code
(`Debugger::spawn_process_internal` / `spawn_process_with_pty_internal`,
debugger_spawn.cpp) -/

/-- Outcome of the forked child. -/
inductive ChildOutcome
  | exec_target
  | exited (code : Nat)
deriving DecidableEq, Repr

/-- Child branch of `spawn_process_internal` (debugger_spawn.cpp lines
132-155): `PTRACE_TRACEME` failure runs `_exit(1)`; on `execvp` failure
the child prints an error and runs `_exit(1)`. -/
def spawn_child (traceme_ok exec_ok : Bool) : ChildOutcome :=
  if ¬ traceme_ok then .exited 1
  else if exec_ok then .exec_target
  else .exited 1

/-- Child branch of `spawn_process_with_pty_internal` (debugger_spawn.cpp
lines 349-371): identical structure, after `forkpty`. -/
def spawn_child_with_pty (traceme_ok exec_ok : Bool) : ChildOutcome :=
  if ¬ traceme_ok then .exited 1
  else if exec_ok then .exec_target
  else .exited 1

/-! ## C6: word-by-word memory read
(`Debugger::read_memory_internal`, debugger_memory.cpp lines 72-126) -/

/-- Result of one `PTRACE_PEEKDATA`, distinguished by `errno` as the
source does: success, `EIO`/`EFAULT` (unreadable word), `ESRCH`
(thread gone), any other error. -/
inductive Peek
  | ok (word : Nat)
  | eio
  | esrch
  | eother
deriving Repr

/-- `sizeof(long)` on the 64-bit targets. -/
def word_size : Nat := 8

/-- `memcpy(buffer + pos, word_bytes + offset, cnt)` for a little-endian
word: byte `k` of `word` is `(word >>> (8*k)) % 256`. -/
def set_bytes (buffer : List Nat) (pos : Nat) (word : Nat) (offset cnt : Nat) :
    List Nat :=
  match cnt with
  | 0 => buffer
  | n + 1 =>
      set_bytes (buffer.set pos ((word >>> (8 * offset)) % 256)) (pos + 1) word
        (offset + 1) n

/-- The read loop of `read_memory_internal` (debugger_memory.cpp lines
78-117).  State: `bytes_read` and `consecutive_failures`; each pass peeks
the word containing `address + bytes_read`, copies the readable part, and
on `EIO`/`EFAULT` skips the rest of the word (`continue`, buffer
untouched).  `ESRCH` breaks; other errors advance one byte.  The loop
exits when `bytes_read >= size` or after `3` consecutive failures. -/
def read_memory_loop (mem : Nat → Peek) (address size : Nat)
    (buffer : List Nat) (bytes_read consecutive_failures : Nat) :
    Nat × List Nat :=
  if _h : bytes_read < size ∧ consecutive_failures < 3 then
    -- source: `aligned_addr = x & ~(word_size - 1)`, `offset = x - aligned_addr`,
    -- i.e. `aligned = x - x % word_size` and `offset = x % word_size`
    let aligned := (address + bytes_read) - (address + bytes_read) % word_size
    let offset := (address + bytes_read) % word_size
    match mem aligned with
    | .ok word =>
        let bytes_to_copy := min (size - bytes_read) (word_size - offset)
        read_memory_loop mem address size
          (set_bytes buffer bytes_read word offset bytes_to_copy)
          (bytes_read + bytes_to_copy) 0
    | .eio =>
        let skip_bytes := word_size - offset
        if bytes_read + skip_bytes ≥ size then (bytes_read, buffer)
        else
          read_memory_loop mem address size buffer (bytes_read + skip_bytes)
            (consecutive_failures + 1)
    | .esrch => (bytes_read, buffer)
    | .eother =>
        read_memory_loop mem address size buffer (bytes_read + 1)
          (consecutive_failures + 1)
  else (bytes_read, buffer)
termination_by size - bytes_read
decreasing_by
  all_goals ((try simp only [word_size] at *); omega)

/-- `read_memory_internal` final return (debugger_memory.cpp line 125):
`bytes_read > 0 ? bytes_read : -1`, paired with the output buffer.  The
thread-selection preamble (lines 41-70) only chooses which stopped thread
to peek through and is not modelled; `mem` stands for the target address
space as seen through that thread. -/
def read_memory_internal (mem : Nat → Peek) (address size : Nat)
    (buffer : List Nat) : Int × List Nat :=
  let r := read_memory_loop mem address size buffer 0 0
  (if r.1 > 0 then (r.1 : Int) else -1, r.2)

/-! ## C9: register read/write
(`Debugger::read_register_internal` / `write_register_internal`,
debugger_register.cpp lines 41-207 and 230-399) -/

/-- ARM64 `struct user_pt_regs` (asm/ptrace.h): `regs[31]`, `sp`, `pc`,
`pstate`.  The 31-element array is embedded as named fields
`x0`..`x30`. -/
structure UserPtRegs where
  x0 : Nat
  x1 : Nat
  x2 : Nat
  x3 : Nat
  x4 : Nat
  x5 : Nat
  x6 : Nat
  x7 : Nat
  x8 : Nat
  x9 : Nat
  x10 : Nat
  x11 : Nat
  x12 : Nat
  x13 : Nat
  x14 : Nat
  x15 : Nat
  x16 : Nat
  x17 : Nat
  x18 : Nat
  x19 : Nat
  x20 : Nat
  x21 : Nat
  x22 : Nat
  x23 : Nat
  x24 : Nat
  x25 : Nat
  x26 : Nat
  x27 : Nat
  x28 : Nat
  x29 : Nat
  x30 : Nat
  sp : Nat
  pc : Nat
  pstate : Nat
deriving DecidableEq, Repr

/-- x86_64 `struct user_regs_struct` (sys/user.h), restricted to the
fields the debugger reads or writes (`orig_rax` and the unused padding
fields are never touched by the embedded code). -/
structure UserRegsStruct where
  rax : Nat
  rbx : Nat
  rcx : Nat
  rdx : Nat
  rsi : Nat
  rdi : Nat
  rbp : Nat
  rsp : Nat
  r8 : Nat
  r9 : Nat
  r10 : Nat
  r11 : Nat
  r12 : Nat
  r13 : Nat
  r14 : Nat
  r15 : Nat
  rip : Nat
  eflags : Nat
  cs : Nat
  ss : Nat
  ds : Nat
  es : Nat
  fs : Nat
  gs : Nat
  fs_base : Nat
  gs_base : Nat
deriving DecidableEq, Repr

/-- ARM64 branch of `read_register_internal` (debugger_register.cpp lines
70-144): the name-to-field dispatch applied to the register file fetched
with `PTRACE_GETREGSET`/`NT_PRSTATUS`; an unknown name returns the error
(`none` here, `-1` in the source). -/
def arm64_read_register (regs : UserPtRegs) (reg_name : String) : Option Nat :=
  if reg_name = "x0" then some regs.x0
  else if reg_name = "x1" then some regs.x1
  else if reg_name = "x2" then some regs.x2
  else if reg_name = "x3" then some regs.x3
  else if reg_name = "x4" then some regs.x4
  else if reg_name = "x5" then some regs.x5
  else if reg_name = "x6" then some regs.x6
  else if reg_name = "x7" then some regs.x7
  else if reg_name = "x8" then some regs.x8
  else if reg_name = "x9" then some regs.x9
  else if reg_name = "x10" then some regs.x10
  else if reg_name = "x11" then some regs.x11
  else if reg_name = "x12" then some regs.x12
  else if reg_name = "x13" then some regs.x13
  else if reg_name = "x14" then some regs.x14
  else if reg_name = "x15" then some regs.x15
  else if reg_name = "x16" then some regs.x16
  else if reg_name = "x17" then some regs.x17
  else if reg_name = "x18" then some regs.x18
  else if reg_name = "x19" then some regs.x19
  else if reg_name = "x20" then some regs.x20
  else if reg_name = "x21" then some regs.x21
  else if reg_name = "x22" then some regs.x22
  else if reg_name = "x23" then some regs.x23
  else if reg_name = "x24" then some regs.x24
  else if reg_name = "x25" then some regs.x25
  else if reg_name = "x26" then some regs.x26
  else if reg_name = "x27" then some regs.x27
  else if reg_name = "x28" then some regs.x28
  else if reg_name = "x29" then some regs.x29
  else if reg_name = "x30" then some regs.x30
  else if reg_name = "sp" then some regs.sp
  else if reg_name = "pc" then some regs.pc
  else if reg_name = "pstate" then some regs.pstate
  else none

/-- ARM64 branch of `write_register_internal` (debugger_register.cpp
lines 252-326): fetch the register file, update the named field, store it
back with `PTRACE_SETREGSET`; unknown names return the error. -/
def arm64_write_register (regs : UserPtRegs) (reg_name : String) (value : Nat) :
    Option UserPtRegs :=
  if reg_name = "x0" then some { regs with x0 := value }
  else if reg_name = "x1" then some { regs with x1 := value }
  else if reg_name = "x2" then some { regs with x2 := value }
  else if reg_name = "x3" then some { regs with x3 := value }
  else if reg_name = "x4" then some { regs with x4 := value }
  else if reg_name = "x5" then some { regs with x5 := value }
  else if reg_name = "x6" then some { regs with x6 := value }
  else if reg_name = "x7" then some { regs with x7 := value }
  else if reg_name = "x8" then some { regs with x8 := value }
  else if reg_name = "x9" then some { regs with x9 := value }
  else if reg_name = "x10" then some { regs with x10 := value }
  else if reg_name = "x11" then some { regs with x11 := value }
  else if reg_name = "x12" then some { regs with x12 := value }
  else if reg_name = "x13" then some { regs with x13 := value }
  else if reg_name = "x14" then some { regs with x14 := value }
  else if reg_name = "x15" then some { regs with x15 := value }
  else if reg_name = "x16" then some { regs with x16 := value }
  else if reg_name = "x17" then some { regs with x17 := value }
  else if reg_name = "x18" then some { regs with x18 := value }
  else if reg_name = "x19" then some { regs with x19 := value }
  else if reg_name = "x20" then some { regs with x20 := value }
  else if reg_name = "x21" then some { regs with x21 := value }
  else if reg_name = "x22" then some { regs with x22 := value }
  else if reg_name = "x23" then some { regs with x23 := value }
  else if reg_name = "x24" then some { regs with x24 := value }
  else if reg_name = "x25" then some { regs with x25 := value }
  else if reg_name = "x26" then some { regs with x26 := value }
  else if reg_name = "x27" then some { regs with x27 := value }
  else if reg_name = "x28" then some { regs with x28 := value }
  else if reg_name = "x29" then some { regs with x29 := value }
  else if reg_name = "x30" then some { regs with x30 := value }
  else if reg_name = "sp" then some { regs with sp := value }
  else if reg_name = "pc" then some { regs with pc := value }
  else if reg_name = "pstate" then some { regs with pstate := value }
  else none

/-- x86_64 branch of `read_register_internal` (debugger_register.cpp
lines 145-204); `"rflags"` and `"eflags"` both map to `eflags`. -/
def x86_read_register (regs : UserRegsStruct) (reg_name : String) : Option Nat :=
  if reg_name = "rax" then some regs.rax
  else if reg_name = "rbx" then some regs.rbx
  else if reg_name = "rcx" then some regs.rcx
  else if reg_name = "rdx" then some regs.rdx
  else if reg_name = "rsi" then some regs.rsi
  else if reg_name = "rdi" then some regs.rdi
  else if reg_name = "rbp" then some regs.rbp
  else if reg_name = "rsp" then some regs.rsp
  else if reg_name = "r8" then some regs.r8
  else if reg_name = "r9" then some regs.r9
  else if reg_name = "r10" then some regs.r10
  else if reg_name = "r11" then some regs.r11
  else if reg_name = "r12" then some regs.r12
  else if reg_name = "r13" then some regs.r13
  else if reg_name = "r14" then some regs.r14
  else if reg_name = "r15" then some regs.r15
  else if reg_name = "rip" then some regs.rip
  else if reg_name = "rflags" ∨ reg_name = "eflags" then some regs.eflags
  else if reg_name = "cs" then some regs.cs
  else if reg_name = "ss" then some regs.ss
  else if reg_name = "ds" then some regs.ds
  else if reg_name = "es" then some regs.es
  else if reg_name = "fs" then some regs.fs
  else if reg_name = "gs" then some regs.gs
  else if reg_name = "fs_base" then some regs.fs_base
  else if reg_name = "gs_base" then some regs.gs_base
  else none

/-- x86_64 branch of `write_register_internal` (debugger_register.cpp
lines 327-386). -/
def x86_write_register (regs : UserRegsStruct) (reg_name : String)
    (value : Nat) : Option UserRegsStruct :=
  if reg_name = "rax" then some { regs with rax := value }
  else if reg_name = "rbx" then some { regs with rbx := value }
  else if reg_name = "rcx" then some { regs with rcx := value }
  else if reg_name = "rdx" then some { regs with rdx := value }
  else if reg_name = "rsi" then some { regs with rsi := value }
  else if reg_name = "rdi" then some { regs with rdi := value }
  else if reg_name = "rbp" then some { regs with rbp := value }
  else if reg_name = "rsp" then some { regs with rsp := value }
  else if reg_name = "r8" then some { regs with r8 := value }
  else if reg_name = "r9" then some { regs with r9 := value }
  else if reg_name = "r10" then some { regs with r10 := value }
  else if reg_name = "r11" then some { regs with r11 := value }
  else if reg_name = "r12" then some { regs with r12 := value }
  else if reg_name = "r13" then some { regs with r13 := value }
  else if reg_name = "r14" then some { regs with r14 := value }
  else if reg_name = "r15" then some { regs with r15 := value }
  else if reg_name = "rip" then some { regs with rip := value }
  else if reg_name = "rflags" ∨ reg_name = "eflags" then
    some { regs with eflags := value }
  else if reg_name = "cs" then some { regs with cs := value }
  else if reg_name = "ss" then some { regs with ss := value }
  else if reg_name = "ds" then some { regs with ds := value }
  else if reg_name = "es" then some { regs with es := value }
  else if reg_name = "fs" then some { regs with fs := value }
  else if reg_name = "gs" then some { regs with gs := value }
  else if reg_name = "fs_base" then some { regs with fs_base := value }
  else if reg_name = "gs_base" then some { regs with gs_base := value }
  else none

/-- The canonical ARM64 register names (spec section 4.5). -/
def arm64CanonicalRegisters : List String :=
  ["x0", "x1", "x2", "x3", "x4", "x5", "x6", "x7", "x8", "x9", "x10", "x11",
   "x12", "x13", "x14", "x15", "x16", "x17", "x18", "x19", "x20", "x21",
   "x22", "x23", "x24", "x25", "x26", "x27", "x28", "x29", "x30", "sp",
   "pc", "pstate"]

/-- The canonical x86_64 register names (spec section 4.5). -/
def x86CanonicalRegisters : List String :=
  ["rax", "rbx", "rcx", "rdx", "rsi", "rdi", "rbp", "rsp", "r8", "r9",
   "r10", "r11", "r12", "r13", "r14", "r15", "rip", "rflags", "cs", "ss",
   "ds", "es", "fs", "gs", "fs_base", "gs_base"]

/-! ## The debugger state (debugger.h member variables)

`std::vector` tables become `List`s (the fixed-capacity ones have length
`MAX_WATCHPOINTS` resp. `MAX_BREAKPOINTS`; the software table has
capacity `MAX_SOFTWARE_BREAKPOINTS`, its loops are embedded as scans over
the list).  `std::map<pid_t, ThreadState>` becomes an association list,
`std::set<pid_t>` a duplicate-free list.  The per-slot
`WatchpointSync`/`BreakpointSync` atomics become parallel lists. -/

/-- A register file of all zeroes (the C++ `ThreadState::regs` member is
an uninitialized POD; it is always written before being read on the
embedded paths, so the zero placeholder is immaterial). -/
def zeroRegs : UserPtRegs :=
  ⟨0, 0, 0, 0, 0, 0, 0, 0, 0, 0, 0, 0, 0, 0, 0, 0, 0, 0, 0, 0, 0, 0, 0, 0,
   0, 0, 0, 0, 0, 0, 0, 0, 0, 0⟩

/-- `Debugger::ThreadState` (debugger.h lines 153-169). -/
structure ThreadState where
  single_step_mode : SingleStepMode
  single_step_count : Int
  current_breakpoint_index : Int
  regs : UserPtRegs
  is_attached : Bool
  is_stopped : Bool
  stopped_by_user : Bool
  original_wcr : Nat
  disabled_watchpoint_index : Int
  pending_signal : Int
deriving DecidableEq, Repr

/-- The default-constructed `ThreadState` (the member initializers of
debugger.h lines 155-168), as produced by `std::map::operator[]`. -/
def ThreadState.init : ThreadState :=
  ⟨.None, 0, -1, zeroRegs, false, false, false, 0, -1, 0⟩

/-- Kernel-side state of one target thread: the general-purpose register
file (read/written via `PTRACE_GETREGSET`/`SETREGSET` with
`NT_PRSTATUS`) and the hardware watchpoint/breakpoint registers as
`(addr, ctrl)` pairs (`NT_ARM_HW_WATCH` / `NT_ARM_HW_BREAK`). -/
structure TargetThread where
  live_regs : UserPtRegs
  hw_watch : List (Nat × Nat)
  hw_break : List (Nat × Nat)
deriving DecidableEq, Repr

/-- Association-list lookup (`std::map::find`). -/
def alist_find {κ α : Type} [BEq κ] (m : List (κ × α)) (k : κ) : Option α :=
  (m.find? (fun p => p.1 == k)).map (fun p => p.2)

/-- Association-list store, replacing an existing binding in place. -/
def alist_set {κ α : Type} [BEq κ] (m : List (κ × α)) (k : κ) (v : α) :
    List (κ × α) :=
  match m with
  | [] => [(k, v)]
  | (k2, v2) :: rest =>
      if k2 == k then (k, v) :: rest else (k2, v2) :: alist_set rest k v

/-- `std::map::operator[]` followed by a mutation: default-insert if the
key is absent, then apply `f`. -/
def alist_update {κ α : Type} [BEq κ] (m : List (κ × α)) (k : κ) (dflt : α)
    (f : α → α) : List (κ × α) :=
  match alist_find m k with
  | some v => alist_set m k (f v)
  | none => alist_set m k (f dflt)

/-- `std::map::erase`. -/
def alist_erase {κ α : Type} [BEq κ] (m : List (κ × α)) (k : κ) :
    List (κ × α) :=
  m.filter (fun p => !(p.1 == k))

/-- `std::set::insert` (deduplicating). -/
def set_insert (l : List Nat) (x : Nat) : List Nat :=
  if l.contains x then l else l ++ [x]

/-- The `Debugger` member variables relevant to the embedded operations
(debugger.h lines 171-222).  `watchpoint_removing` /
`watchpoint_active_handlers` are `watchpoint_sync_[i].removing` /
`.active_handlers`; `breakpoint_types` is kept although the embedded
paths never read it. -/
structure Dbg where
  pid_ : Nat
  attached_threads_ : List Nat
  debug_state_ : DebugState
  current_thread : Nat
  user_suspend_pending_ : Bool
  removing_mask_ : Nat
  watchpoint_removing : List Bool
  watchpoint_active_handlers : List Int
  watchpoint_used : List Bool
  watchpoint_addresses : List Nat
  watchpoint_sizes : List Int
  watchpoint_types : List WatchpointType
  breakpoint_used : List Bool
  breakpoint_addresses : List Nat
  breakpoint_hit_counts : List Int
  breakpoint_target_counts : List Int
  breakpoint_types : List BreakpointType
  software_breakpoint_used : List Bool
  software_breakpoint_addresses : List Nat
  software_breakpoint_original_bytes : List Nat
  thread_states_ : List (Nat × ThreadState)
  signal_config_ : List (Int × SignalConfig)
deriving DecidableEq, Repr

/-- The world a debugger operation acts on: the `Debugger` object, the
kernel-side per-thread state, and the target's memory
(`PTRACE_PEEKDATA`/`POKEDATA` word at an address; `none` = the peek
faults, i.e. `errno != 0`). -/
structure World where
  dbg : Dbg
  target : List (Nat × TargetThread)
  mem : Nat → Option Nat

/-- Replace the `Debugger` part of a world. -/
def World.setDbg (w : World) (d : Dbg) : World :=
  { w with dbg := d }

/-- `thread_states_[tid]` mutation (default-inserting map access). -/
def ts_update (d : Dbg) (tid : Nat) (f : ThreadState → ThreadState) : Dbg :=
  { d with thread_states_ := alist_update d.thread_states_ tid ThreadState.init f }

/-- `PTRACE_GETREGSET`/`NT_PRSTATUS`: succeeds iff the thread exists. -/
def world_getregs (w : World) (tid : Nat) : Option UserPtRegs :=
  (alist_find w.target tid).map (fun t => t.live_regs)

/-- Update a target thread's kernel-side record. -/
def target_update (w : World) (tid : Nat) (f : TargetThread → TargetThread) :
    World :=
  { w with target :=
      match alist_find w.target tid with
      | some t => alist_set w.target tid (f t)
      | none => w.target }

/-- `PTRACE_POKEDATA`: store a word (modelled as always succeeding at an
address where the preceding peek succeeded; the embedded call sites poke
only after a successful peek of the same address). -/
def world_poke (w : World) (address word : Nat) : World :=
  { w with mem := fun a => if a == address then some word else w.mem a }

/-- The `NativeExceptionInfo` payload handed to the `on_exception`
upcall (common/exception_info.h), with the register-file union carried
as the ARM64 snapshot it is marshalled from
(`populate_exception_info`, debugger_core.cpp lines 30-55). -/
structure Notification where
  exception_type : Nat
  thread_id : Nat
  memory_address : Nat
  singlestep_mode : Nat
  is_trace : Bool
  regs : UserPtRegs
deriving DecidableEq, Repr

/-- `populate_exception_info` (debugger_core.cpp): fills the payload
from a register snapshot. -/
def populate_exception_info (regs : UserPtRegs) (exception_type : Nat)
    (thread_id : Nat) (memory_address : Nat) (singlestep_mode : Nat)
    (is_trace : Bool) : Notification :=
  ⟨exception_type, thread_id, memory_address, singlestep_mode, is_trace, regs⟩

/-- The externally visible calls an operation performs, in order:
the `on_exception` upcall (`SEND_EXCEPTION_INFO`), thread resumption
(`PTRACE_CONT` with the delivered signal), single-stepping
(`PTRACE_SINGLESTEP` with the delivered signal), a raw `kill`, and
enqueuing a `ReapplyWatchpoints` request. -/
inductive Action
  | send_exception_info (n : Notification)
  | ptrace_cont (tid : Nat) (sig : Int)
  | ptrace_single_step (tid : Nat) (sig : Int)
  | kill_signal (tid : Nat) (sig : Int)
  | enqueue_reapply_watchpoints (tid : Nat)
deriving DecidableEq, Repr

/-! ## Lookup helpers (debugger_watchpoint.cpp / debugger_breakpoint.cpp) -/

/-- `Debugger::find_free_watchpoint` (debugger_watchpoint.cpp lines
191-202): first `i < MAX_WATCHPOINTS` with `!watchpoint_used[i]`. -/
def find_free_watchpoint (d : Dbg) : Option Nat :=
  (List.range MAX_WATCHPOINTS).find? (fun i => ! d.watchpoint_used.getD i false)

/-- `Debugger::find_watchpoint_index` (debugger_watchpoint.cpp lines
204-215). -/
def find_watchpoint_index (d : Dbg) (address : Nat) : Option Nat :=
  (List.range MAX_WATCHPOINTS).find? (fun i =>
    d.watchpoint_used.getD i false && (d.watchpoint_addresses.getD i 0 == address))

/-- `Debugger::find_free_breakpoint` (debugger_breakpoint.cpp lines
460-471). -/
def find_free_breakpoint (d : Dbg) : Option Nat :=
  (List.range MAX_BREAKPOINTS).find? (fun i => ! d.breakpoint_used.getD i false)

/-- The software-table scan of `Debugger::find_breakpoint_index`
(debugger_breakpoint.cpp lines 490-510), ARM64 branch: first in-use
entry whose address equals `address` (the `address - 1` INT3 tolerance
is x86_64-only). -/
def sw_find_index (d : Dbg) (address : Nat) : Option Nat :=
  (List.range d.software_breakpoint_used.length).find? (fun i =>
    d.software_breakpoint_used.getD i false &&
      (d.software_breakpoint_addresses.getD i 0 == address))

/-- `Debugger::find_breakpoint_index` (debugger_breakpoint.cpp lines
473-513): hardware table first, then software entries offset by
`+ 1000`. -/
def find_breakpoint_index (d : Dbg) (address : Nat) : Option Nat :=
  match (List.range MAX_BREAKPOINTS).find? (fun i =>
      d.breakpoint_used.getD i false &&
        (d.breakpoint_addresses.getD i 0 == address)) with
  | some i => some i
  | none =>
      match sw_find_index d address with
      | some i => some (i + 1000)
      | none => none

/-- `Debugger::get_signal_config` (debugger_core.cpp lines 238-247):
map lookup with default `SignalConfig(false, false)`. -/
def get_signal_config (d : Dbg) (signal : Int) : SignalConfig :=
  match alist_find d.signal_config_ signal with
  | some c => c
  | none => ⟨false, false⟩

/-- `Debugger::is_in_break_state` (debugger_core.cpp lines 221-224). -/
def is_in_break_state (d : Dbg) : Bool :=
  d.debug_state_ == DebugState.BreakpointHit ||
    d.debug_state_ == DebugState.WatchpointHit

/-! ## Stop-the-world coordination (debugger_thread.cpp)

`stop_all_threads` / `resume_threads` are embedded in their idealized
kernel behaviour: every attached thread is live in `/proc`, every
`PTRACE_INTERRUPT` is delivered and its stop materializes within the
timeout, and every `PTRACE_CONT` succeeds.  The claims settled here do
not concern the timeout/ESRCH edge branches. -/

/-- Recursion for `Debugger::stop_all_threads` (debugger_thread.cpp lines
157-330): skip `exclude_thread_id`; an already-stopped thread is recorded
in both the stopped and the already-stopped lists; any other thread is
interrupted and, once the stop materializes, marked `is_stopped`. -/
def stop_all_threads_go (d : Dbg) (exclude : Nat) (tids : List Nat)
    (stopped already : List Nat) : Dbg × List Nat × List Nat :=
  match tids with
  | [] => (d, stopped, already)
  | tid :: rest =>
      if tid == exclude then stop_all_threads_go d exclude rest stopped already
      else
        match alist_find d.thread_states_ tid with
        | some s =>
            if s.is_stopped then
              stop_all_threads_go d exclude rest (stopped ++ [tid])
                (already ++ [tid])
            else
              stop_all_threads_go
                (ts_update d tid (fun t => { t with is_stopped := true }))
                exclude rest (stopped ++ [tid]) already
        | none =>
            stop_all_threads_go
              (ts_update d tid (fun t => { t with is_stopped := true }))
              exclude rest (stopped ++ [tid]) already

/-- `Debugger::stop_all_threads` under the idealized kernel. -/
def stop_all_threads (d : Dbg) (exclude_thread_id : Nat) :
    Dbg × List Nat × List Nat :=
  stop_all_threads_go d exclude_thread_id d.attached_threads_ [] []

/-- `Debugger::resume_threads` (debugger_thread.cpp lines 332-376):
for each thread consume `pending_signal`, `PTRACE_CONT` with it, and
mark the thread running. -/
def resume_threads (d : Dbg) (stopped_threads : List Nat) :
    Dbg × List Action :=
  match stopped_threads with
  | [] => (d, [])
  | tid :: rest =>
      let signal_to_pass :=
        match alist_find d.thread_states_ tid with
        | some s => s.pending_signal
        | none => 0
      let d1 :=
        match alist_find d.thread_states_ tid with
        | some s =>
            { d with thread_states_ := (alist_set d.thread_states_ tid
                { s with pending_signal := 0, is_stopped := false }) }
        | none => d
      let (d2, acts) := resume_threads d1 rest
      (d2, Action.ptrace_cont tid signal_to_pass :: acts)

/-- Filter of debugger_watchpoint.cpp lines 78-87 (and its copies):
resume only the threads that were not already stopped before the call. -/
def threads_to_resume (stopped already : List Nat) : List Nat :=
  stopped.filter (fun tid => ! already.contains tid)

/-! ## Watchpoint operations (debugger_watchpoint.cpp) -/

/-- Access-type encoding (debugger_watchpoint.cpp lines 383-398):
`READ -> LOAD`, `WRITE -> STORE`, `READWRITE -> STORE | LOAD`. -/
def watchpoint_btype : WatchpointType → Nat
  | .READ => ARM_BREAKPOINT_LOAD
  | .WRITE => ARM_BREAKPOINT_STORE
  | .READWRITE => ARM_BREAKPOINT_STORE ||| ARM_BREAKPOINT_LOAD

/-- Per-thread body of `Debugger::apply_watchpoint_to_threads` (ARM64
branch, debugger_watchpoint.cpp lines 347-416): re-enable every slot
with a nonzero address (`ctrl |= 1`), then program slot `index` with the
address and `encode_ctrl_reg(0, len, type, 2, 1)`. -/
def apply_watchpoint_hw (t : TargetThread) (index : Nat) (address : Nat)
    (size : Int) (ty : WatchpointType) : TargetThread :=
  let reenabled := t.hw_watch.map (fun p =>
    if p.1 != 0 then (p.1, p.2 ||| 1) else p)
  { t with hw_watch := (reenabled.set index
      (address, encode_ctrl_reg 0 (arm64_watchpoint_length size)
        (watchpoint_btype ty) 2 1)) }

/-- `Debugger::apply_watchpoint_to_threads` over the stopped list; a
thread whose regset read fails (gone) is skipped (`continue`), matching
the source; under the idealized kernel the function succeeds. -/
def apply_watchpoint_to_threads (w : World) (threads : List Nat)
    (index : Nat) (address : Nat) (size : Int) (ty : WatchpointType) :
    World × Bool :=
  match threads with
  | [] => (w, true)
  | tid :: rest =>
      let w1 :=
        match alist_find w.target tid with
        | some t => { w with target := (alist_set w.target tid
            (apply_watchpoint_hw t index address size ty)) }
        | none => w
      apply_watchpoint_to_threads w1 rest index address size ty

/-- `Debugger::set_watchpoint_internal` (debugger_watchpoint.cpp lines
56-104): allocate the lowest free slot, stop the world, program every
stopped thread, resume the previously-running threads, and record the
slot metadata on success. -/
def set_watchpoint_internal (w : World) (address : Nat) (size : Int)
    (ty : WatchpointType) : Int × World × List Action :=
  match find_free_watchpoint w.dbg with
  | none => (-1, w, [])
  | some index =>
      let (d1, stopped, already) := stop_all_threads w.dbg 0
      if stopped.isEmpty then (-1, w.setDbg d1, [])
      else
        let (w2, success) :=
          apply_watchpoint_to_threads (w.setDbg d1) stopped index address size ty
        let (d3, acts) := resume_threads w2.dbg (threads_to_resume stopped already)
        if success then
          let d4 := { d3 with
            watchpoint_used := d3.watchpoint_used.set index true,
            watchpoint_addresses := d3.watchpoint_addresses.set index address,
            watchpoint_sizes := d3.watchpoint_sizes.set index size,
            watchpoint_types := d3.watchpoint_types.set index ty }
          (0, w2.setDbg d4, acts)
        else (-1, w2.setDbg d3, acts)

/-- `Debugger::handle_watchpoint_hit` (debugger_watchpoint.cpp lines
246-336), ARM64 branch.  If the slot's bit is set in `removing_mask_`
the thread is resumed and nothing else happens; otherwise
`active_handlers` is incremented, the slot's control word is saved in
`original_wcr` and zeroed on the hitting thread, and the thread is put
in `SingleStepMode::Watchpoint` and single-stepped. -/
def handle_watchpoint_hit (w : World) (thread : Nat)
    (watchpoint_index : Nat) : Int × World × List Action :=
  if w.dbg.removing_mask_ &&& (1 <<< watchpoint_index) != 0 then
    (0, w, [Action.ptrace_cont thread 0])
  else
    let d0 := { w.dbg with watchpoint_active_handlers :=
      (w.dbg.watchpoint_active_handlers.set watchpoint_index
        (w.dbg.watchpoint_active_handlers.getD watchpoint_index 0 + 1)) }
    match alist_find w.target thread with
    | none =>
        -- PTRACE_GETREGSET failed: decrement the handler count, error out
        let d1 := { d0 with watchpoint_active_handlers :=
          (d0.watchpoint_active_handlers.set watchpoint_index
            (d0.watchpoint_active_handlers.getD watchpoint_index 0 - 1)) }
        (-1, w.setDbg d1, [])
    | some t =>
        let old_ctrl := (t.hw_watch.getD watchpoint_index (0, 0)).2
        let d1 := ts_update d0 thread (fun s =>
          { s with original_wcr := old_ctrl,
                   disabled_watchpoint_index := (watchpoint_index : Int) })
        let w1 := { w.setDbg d1 with target := (alist_set w.target thread
          { t with hw_watch := (t.hw_watch.set watchpoint_index
              ((t.hw_watch.getD watchpoint_index (0, 0)).1, 0)) }) }
        let d2 := ts_update w1.dbg thread (fun s =>
          { s with single_step_mode := .Watchpoint, single_step_count := 0,
                   current_breakpoint_index := -1, is_stopped := false })
        (0, w1.setDbg d2, [Action.ptrace_single_step thread 0])

/-! ## Software breakpoint install (debugger_breakpoint.cpp) -/

/-- `BRK #0` (debugger_breakpoint.cpp line 158). -/
def brk_instruction : Nat := 0xD4200000

/-- Store `bytes` into the flat `software_breakpoint_original_bytes`
vector starting at `offset`. -/
def set_flat_bytes (l : List Nat) (offset : Nat) (bytes : List Nat) :
    List Nat :=
  match bytes with
  | [] => l
  | b :: rest => set_flat_bytes (l.set offset b) (offset + 1) rest

/-- The little-endian low 4 bytes of a peeked word, as saved by
`memcpy(original_bytes, &word, 4)` on ARM64. -/
def word_low_bytes (word : Nat) : List Nat :=
  [word % 256, (word >>> 8) % 256, (word >>> 16) % 256, (word >>> 24) % 256]

/-- Reassemble the saved 4 original bytes of software breakpoint `i`
into the `uint32_t` instruction (`memcpy(&original_instruction,
original_bytes, 4)`, little-endian). -/
def sw_original_word (d : Dbg) (i : Nat) : Nat :=
  d.software_breakpoint_original_bytes.getD (i * 4) 0 |||
    (d.software_breakpoint_original_bytes.getD (i * 4 + 1) 0 <<< 8) |||
    (d.software_breakpoint_original_bytes.getD (i * 4 + 2) 0 <<< 16) |||
    (d.software_breakpoint_original_bytes.getD (i * 4 + 3) 0 <<< 24)

/-- `Debugger::set_software_breakpoint_internal`
(debugger_breakpoint.cpp lines 124-247), ARM64 branch (`bp_size = 4`,
trap `BRK #0`): find the first free table entry (no check whether an
entry for `address` already exists), stop the world, peek the word at
`address`, save its low 4 bytes as the original instruction, poke the
word back with the trap merged into the low 32 bits, resume, and mark
the entry used.  `hit_count` is accepted but not stored. -/
def set_software_breakpoint_internal (w : World) (address : Nat)
    (hit_count : Int) : Int × World × List Action :=
  let _ := hit_count
  match (List.range w.dbg.software_breakpoint_used.length).find? (fun i =>
      ! w.dbg.software_breakpoint_used.getD i false) with
  | none => (-1, w, [])
  | some index =>
      let (d1, stopped, already) := stop_all_threads w.dbg 0
      if stopped.isEmpty then (-1, w.setDbg d1, [])
      else
        match w.mem address with
        | none =>
            let (d2, acts) := resume_threads d1 (threads_to_resume stopped already)
            (-1, w.setDbg d2, acts)
        | some word =>
            let original_bytes := word_low_bytes word
            let patched_word := (word &&& 0xFFFFFFFF00000000) ||| brk_instruction
            let w1 := world_poke (w.setDbg d1) address patched_word
            let (d2, acts) := resume_threads w1.dbg (threads_to_resume stopped already)
            let d3 := { d2 with
              software_breakpoint_used :=
                d2.software_breakpoint_used.set index true,
              software_breakpoint_addresses :=
                d2.software_breakpoint_addresses.set index address,
              software_breakpoint_original_bytes :=
                set_flat_bytes d2.software_breakpoint_original_bytes
                  (index * 4) original_bytes }
            (0, w1.setDbg d3, acts)

/-! ## Breakpoint hit handling (debugger_breakpoint.cpp,
debugger_exception.cpp) -/

/-- `Debugger::handle_breakpoint_hit` (debugger_breakpoint.cpp lines
519-620).  Reads the registers, replaces the whole per-thread state by
the aggregate of line 552 (mode `Breakpoint`, stopped), then: software
breakpoints stay stopped; a hardware breakpoint in trace mode
(`target_count > 0`, not yet reached) is disabled on the hitting thread
and single-stepped; otherwise the thread stays stopped (wait mode). -/
def handle_breakpoint_hit (w : World) (thread : Nat)
    (breakpoint_index : Nat) : Int × World × List Action :=
  let is_software_bp := breakpoint_index ≥ 1000
  let actual_index :=
    if is_software_bp then breakpoint_index - 1000 else breakpoint_index
  match world_getregs w thread with
  | none => (-1, w, [])
  | some regs =>
      let target_count :=
        if ¬ is_software_bp ∧ actual_index < MAX_BREAKPOINTS then
          w.dbg.breakpoint_target_counts.getD actual_index 0
        else 0
      let current_hit_count :=
        if ¬ is_software_bp ∧ actual_index < MAX_BREAKPOINTS then
          w.dbg.breakpoint_hit_counts.getD actual_index 0
        else 0
      let new_ts : ThreadState :=
        ⟨.Breakpoint, 0,
         (if is_software_bp then -1 else (actual_index : Int)), regs, true,
         true, false, 0,
         (if is_software_bp then (breakpoint_index : Int) else -1), 0⟩
      let d := { w.dbg with
        thread_states_ := alist_set w.dbg.thread_states_ thread new_ts }
      let w1 := w.setDbg d
      if is_software_bp then (0, w1, [])
      else if target_count > 0 ∧ current_hit_count < target_count then
        let w2 := target_update w1 thread (fun t =>
          { t with hw_break := (t.hw_break.set actual_index
              ((t.hw_break.getD actual_index (0, 0)).1, 0)) })
        let d2 := ts_update
          { w2.dbg with debug_state_ := .SingleStepping } thread
          (fun s => { s with is_stopped := false })
        (0, w2.setDbg d2, [Action.ptrace_single_step thread 0])
      else
        let d2 := ts_update w1.dbg thread (fun s => { s with is_stopped := true })
        (0, w1.setDbg d2, [])

/-- `Debugger::handle_software_breakpoint_continue`
(debugger_breakpoint.cpp lines 864-935): restore the original
instruction bytes at the breakpoint address, set
`SingleStepMode::SoftwareBreakpointContinue`, and single-step. -/
def handle_software_breakpoint_continue (w : World) (thread : Nat)
    (breakpoint_index : Nat) : Int × World × List Action :=
  let actual_index := breakpoint_index - 1000
  if actual_index ≥ MAX_SOFTWARE_BREAKPOINTS then (-1, w, [])
  else if ! w.dbg.software_breakpoint_used.getD actual_index false then
    (-1, w, [])
  else
    let bp_addr := w.dbg.software_breakpoint_addresses.getD actual_index 0
    match w.mem bp_addr with
    | none => (-1, w, [])
    | some word =>
        let patched_word := (word &&& 0xFFFFFFFF00000000) |||
          sw_original_word w.dbg actual_index
        let w1 := world_poke w bp_addr patched_word
        let d := ts_update w1.dbg thread (fun s =>
          { s with single_step_mode := .SoftwareBreakpointContinue,
                   disabled_watchpoint_index := (breakpoint_index : Int),
                   is_stopped := false })
        (0, w1.setDbg d, [Action.ptrace_single_step thread 0])

/-- The duplicated re-insertion block of
`Debugger::continue_breakpoint_single_step` (debugger_exception.cpp
lines 1031-1061 and 1201-1235): if the software breakpoint is in range
and in use, peek its address and poke the word back with `BRK #0`
merged in. -/
def reinsert_software_breakpoint (w : World) (sw_bp_index : Nat) : World :=
  if sw_bp_index ≥ MAX_SOFTWARE_BREAKPOINTS then w
  else if ! w.dbg.software_breakpoint_used.getD sw_bp_index false then w
  else
    let bp_addr := w.dbg.software_breakpoint_addresses.getD sw_bp_index 0
    match w.mem bp_addr with
    | none => w
    | some word =>
        world_poke w bp_addr ((word &&& 0xFFFFFFFF00000000) ||| brk_instruction)

/-- `Debugger::complete_watchpoint_single_step` (debugger_exception.cpp
lines 982-1013): decrement the slot's `active_handlers`, clear the
per-thread restoration info, and enqueue `ReapplyWatchpoints`. -/
def complete_watchpoint_single_step (w : World) (thread : Nat) :
    Int × World × List Action :=
  match alist_find w.dbg.thread_states_ thread with
  | none => (-1, w, [])
  | some ts =>
      let d0 :=
        if 0 ≤ ts.disabled_watchpoint_index ∧
            ts.disabled_watchpoint_index < (MAX_WATCHPOINTS : Int) then
          let i := ts.disabled_watchpoint_index.toNat
          { w.dbg with watchpoint_active_handlers :=
            (w.dbg.watchpoint_active_handlers.set i
              (w.dbg.watchpoint_active_handlers.getD i 0 - 1)) }
        else w.dbg
      let d1 := ts_update d0 thread (fun s =>
        { s with single_step_mode := .None, original_wcr := 0,
                 disabled_watchpoint_index := -1, is_stopped := false })
      (0, w.setDbg d1, [Action.enqueue_reapply_watchpoints thread])

/-- `Debugger::continue_breakpoint_single_step` (debugger_exception.cpp
lines 1015-1242), ARM64 branch. -/
def continue_breakpoint_single_step (w : World) (thread : Nat) :
    Int × World × List Action :=
  match alist_find w.dbg.thread_states_ thread with
  | none => (-1, w, [])
  | some ts =>
      let bp_index := ts.current_breakpoint_index
      let step_mode := ts.single_step_mode
      if bp_index < 0 ∨ (MAX_BREAKPOINTS : Int) ≤ bp_index then
        -- no hardware slot: re-insert a temporarily-removed software
        -- breakpoint, reset the step state, then either resume
        -- (software-breakpoint continue) or go back to the break state
        let w1 :=
          if ts.disabled_watchpoint_index ≥ 1000 then
            let w1 := reinsert_software_breakpoint w
              (ts.disabled_watchpoint_index - 1000).toNat
            w1.setDbg (ts_update w1.dbg thread (fun s =>
              { s with disabled_watchpoint_index := -1 }))
          else w
        let d2 := ts_update w1.dbg thread (fun s =>
          { s with single_step_mode := .None, current_breakpoint_index := -1 })
        if step_mode = .SoftwareBreakpointContinue then
          let d3 := { ts_update d2 thread
              (fun s => { s with is_stopped := false }) with
            debug_state_ := .Running }
          (0, w1.setDbg d3, [Action.ptrace_cont thread 0])
        else
          let d3 := { ts_update d2 thread
              (fun s => { s with is_stopped := true }) with
            debug_state_ := .BreakpointHit }
          (0, w1.setDbg d3, [])
      else
        let bp := bp_index.toNat
        let target_count := w.dbg.breakpoint_target_counts.getD bp 0
        let d1 := { w.dbg with breakpoint_hit_counts :=
          (w.dbg.breakpoint_hit_counts.set bp
            (w.dbg.breakpoint_hit_counts.getD bp 0 + 1)) }
        let current_hit_count := d1.breakpoint_hit_counts.getD bp 0
        if target_count > 0 ∧ current_hit_count ≥ target_count then
          -- trace complete: clear the slot on the thread and in the
          -- tables, and continue
          let w2 := target_update (w.setDbg d1) thread (fun t =>
            { t with hw_break := t.hw_break.set bp (0, 0) })
          let d3 := ts_update w2.dbg thread (fun s =>
            { s with single_step_mode := .None, single_step_count := 0,
                     is_stopped := false })
          let d4 := { d3 with
            breakpoint_used := d3.breakpoint_used.set bp false,
            breakpoint_addresses := d3.breakpoint_addresses.set bp 0,
            breakpoint_hit_counts := d3.breakpoint_hit_counts.set bp 0,
            breakpoint_target_counts := d3.breakpoint_target_counts.set bp 0,
            debug_state_ := .Running,
            current_thread := 0 }
          (0, w2.setDbg d4, [Action.ptrace_cont thread 0])
        else if target_count > 0 then
          let d2 := { d1 with debug_state_ := .SingleStepping }
          (0, w.setDbg d2, [Action.ptrace_single_step thread 0])
        else
          -- wait mode: re-enable the slot on the thread, re-insert a
          -- temporarily-removed software breakpoint, back to break state
          let w2 := target_update (w.setDbg d1) thread (fun t =>
            { t with hw_break := (t.hw_break.set bp
                (w.dbg.breakpoint_addresses.getD bp 0,
                 encode_ctrl_reg 0 ARM_BREAKPOINT_LEN_4 ARM_BREAKPOINT_EXECUTE 0 1)) })
          let w3 :=
            if ts.disabled_watchpoint_index ≥ 1000 then
              let w3 := reinsert_software_breakpoint w2
                (ts.disabled_watchpoint_index - 1000).toNat
              w3.setDbg (ts_update w3.dbg thread (fun s =>
                { s with disabled_watchpoint_index := -1 }))
            else w2
          let d4 := { ts_update w3.dbg thread (fun s =>
              { s with single_step_mode := .None, single_step_count := 0,
                       is_stopped := true }) with
            debug_state_ := .BreakpointHit }
          (0, w3.setDbg d4, [])

/-- `Debugger::handle_single_step` (debugger_exception.cpp lines
960-980): dispatch on the thread's `single_step_mode`. -/
def handle_single_step (w : World) (thread : Nat) :
    Int × World × List Action :=
  match alist_find w.dbg.thread_states_ thread with
  | none => (-1, w, [])
  | some ts =>
      match ts.single_step_mode with
      | .Watchpoint => complete_watchpoint_single_step w thread
      | .Breakpoint => continue_breakpoint_single_step w thread
      | .SoftwareBreakpointContinue => continue_breakpoint_single_step w thread
      | _ => (-1, w, [])

/-! ## The event demultiplexer (`Debugger::handle_exception`,
debugger_exception.cpp lines 21-582, ARM64 build) -/

/-- The decoded `wait` status plus the kernel-provided side data that
the handler fetches: `status >> 16` (ptrace event), `siginfo.si_addr`
(`none` models `PTRACE_GETSIGINFO` failing), and the clone child tid
(`PTRACE_GETEVENTMSG`). -/
structure StopInfo where
  sig : Int
  ptrace_event : Nat
  si_addr : Option Nat
  clone_child : Option Nat
deriving DecidableEq, Repr

/-- A `waitpid` result: `WIFSTOPPED` or `WIFEXITED`. -/
inductive WaitStatus
  | stopped (info : StopInfo)
  | exited (code : Nat)
deriving DecidableEq, Repr

/-- The ARM64 watchpoint classification (debugger_exception.cpp lines
180-221): exact containment `address <= fault < address + size` over the
used slots, then the 8-byte-aligned fallback.  Sizes are C `int`s; the
comparison is performed on the unsigned sum as in the source. -/
def classify_watchpoint (d : Dbg) (fault_address : Nat) : Option Nat :=
  match (List.range MAX_WATCHPOINTS).find? (fun i =>
      d.watchpoint_used.getD i false &&
        (decide (d.watchpoint_addresses.getD i 0 ≤ fault_address) &&
         decide (fault_address <
           d.watchpoint_addresses.getD i 0 + (d.watchpoint_sizes.getD i 0).toNat))) with
  | some i => some i
  | none =>
      (List.range MAX_WATCHPOINTS).find? (fun i =>
        d.watchpoint_used.getD i false &&
          (fault_address - fault_address % 8 ==
            d.watchpoint_addresses.getD i 0 -
              d.watchpoint_addresses.getD i 0 % 8))

/-- The `single_step_mode != None` test of debugger_exception.cpp lines
108-110 (requires the thread to be present in the map). -/
def sigtrap_is_step_completion (d : Dbg) (pid : Nat) : Bool :=
  match alist_find d.thread_states_ pid with
  | some ts => ts.single_step_mode != SingleStepMode.None
  | none => false

/-- The `is_trace` computation for the single-step notification
(debugger_exception.cpp lines 118-129). -/
def singlestep_is_trace (d : Dbg) (pid : Nat) : Bool :=
  match alist_find d.thread_states_ pid with
  | some ts =>
      if 0 ≤ ts.current_breakpoint_index ∧
          ts.current_breakpoint_index < (MAX_BREAKPOINTS : Int) then
        d.breakpoint_target_counts.getD ts.current_breakpoint_index.toNat 0 > 0
      else false
  | none => false

/-- The thread's current `single_step_mode` (for the notification
payload), `None` when absent. -/
def thread_step_mode (d : Dbg) (pid : Nat) : SingleStepMode :=
  match alist_find d.thread_states_ pid with
  | some ts => ts.single_step_mode
  | none => .None

/-- The thread's `is_stopped` flag, `false` when absent. -/
def thread_is_stopped (d : Dbg) (pid : Nat) : Bool :=
  match alist_find d.thread_states_ pid with
  | some ts => ts.is_stopped
  | none => false

/-- The `SIGTRAP` branch of `Debugger::handle_exception`
(debugger_exception.cpp lines 72-360), ARM64 build: single-step
completion first, then watchpoint classification by fault address, then
breakpoint lookup by `pc`; otherwise the stop is interrupt-induced and
the thread is left stopped.  `client` is the installed `on_exception`
callback reached through `SEND_EXCEPTION_INFO`; each upcall is also
recorded in the action trace. -/
def handle_sigtrap (client : Notification → Bool) (w : World) (pid : Nat)
    (info : StopInfo) : Int × World × List Action :=
  match world_getregs w pid with
  | none => (0, w, [])
  | some regs =>
      if sigtrap_is_step_completion w.dbg pid then
        let n := populate_exception_info regs EXCEPTION_SINGLESTEP pid 0
          (thread_step_mode w.dbg pid).toNat (singlestep_is_trace w.dbg pid)
        -- the upcall's return value is not consulted on this path
        let (r, w1, acts) := handle_single_step w pid
        (r, w1, Action.send_exception_info n :: acts)
      else
        let fault_address := info.si_addr.getD 0
        let has_fault_address := info.si_addr.isSome
        let wp_index :=
          if has_fault_address ∧ fault_address ≠ 0 then
            classify_watchpoint w.dbg fault_address
          else none
        match wp_index with
        | some i =>
            let d1 := { w.dbg with debug_state_ := .WatchpointHit,
                                   current_thread := pid }
            let d2 := ts_update d1 pid (fun s =>
              { s with regs := regs, current_breakpoint_index := -1,
                       is_stopped := true })
            let n := populate_exception_info regs EXCEPTION_WATCHPOINT pid
              (d2.watchpoint_addresses.getD i 0) 0 false
            -- the upcall's return value is not consulted on this path
            let (r, w2, acts) := handle_watchpoint_hit (w.setDbg d2) pid i
            (r, w2, Action.send_exception_info n :: acts)
        | none =>
            let pc := regs.pc
            match find_breakpoint_index w.dbg pc with
            | none => (0, w, [])
            | some bp_index =>
                let is_software_bp := bp_index ≥ 1000
                let actual_index :=
                  if is_software_bp then bp_index - 1000 else bp_index
                -- (the x86_64 RIP adjustment of lines 259-284 does not
                -- exist on ARM64)
                let target_count :=
                  if ¬ is_software_bp ∧ actual_index < MAX_BREAKPOINTS then
                    w.dbg.breakpoint_target_counts.getD actual_index 0
                  else 0
                let d1 :=
                  if ¬ is_software_bp ∧ actual_index < MAX_BREAKPOINTS then
                    { w.dbg with breakpoint_hit_counts :=
                      (w.dbg.breakpoint_hit_counts.set actual_index
                        (w.dbg.breakpoint_hit_counts.getD actual_index 0 + 1)) }
                  else w.dbg
                let d2 := { d1 with debug_state_ := .BreakpointHit,
                                    current_thread := pid }
                let d3 := ts_update d2 pid (fun s =>
                  { s with regs := regs,
                           current_breakpoint_index :=
                             (if is_software_bp then -1 else (actual_index : Int)),
                           is_stopped := true })
                let d4 :=
                  if is_software_bp then
                    ts_update d3 pid (fun s =>
                      { s with disabled_watchpoint_index := (bp_index : Int) })
                  else d3
                let n := populate_exception_info regs EXCEPTION_BREAKPOINT pid
                  0 0 (target_count > 0)
                let should_break := client n
                if ¬ should_break then
                  let d5 := ts_update d4 pid (fun s =>
                    { s with is_stopped := false })
                  if is_software_bp then
                    let (r, w5, acts) :=
                      handle_software_breakpoint_continue (w.setDbg d5) pid bp_index
                    (r, w5, Action.send_exception_info n :: acts)
                  else
                    (0, w.setDbg d5,
                     [Action.send_exception_info n, Action.ptrace_cont pid 0])
                else
                  let (r, w5, acts) := handle_breakpoint_hit (w.setDbg d4) pid bp_index
                  (r, w5, Action.send_exception_info n :: acts)

/-- The signal-to-exception-type mapping of the catch branch
(debugger_exception.cpp lines 463-485). -/
def signal_exception_type (signal : Int) : Nat :=
  if signal = SIGSEGV_NUM then EXCEPTION_SIGSEGV
  else if signal = SIGBUS_NUM then EXCEPTION_SIGBUS
  else if signal = SIGFPE_NUM then EXCEPTION_SIGFPE
  else if signal = SIGILL_NUM then EXCEPTION_SIGILL
  else if signal = SIGABRT_NUM then EXCEPTION_SIGABRT
  else EXCEPTION_SIGNAL

/-- The resume tail of the `default` signal branch
(debugger_exception.cpp lines 529-568): suppress the signal unless
`pass` is configured or the signal is `SIGPWR` (30) or `SIGXCPU` (24),
mark the thread running, and resume it with `PTRACE_CONT` (or
`PTRACE_SINGLESTEP` if it was mid-step). -/
def signal_default_continue (w : World) (pid : Nat) (signal : Int)
    (config : SignalConfig) : Int × World × List Action :=
  let signal_to_pass :=
    if config.pass_signal ∨ signal = SIGPWR_NUM ∨ signal = SIGXCPU_NUM then
      signal
    else 0
  match alist_find w.dbg.thread_states_ pid with
  | some s =>
      let d := { w.dbg with thread_states_ := (alist_set w.dbg.thread_states_
        pid { s with is_stopped := false }) }
      let act :=
        if s.single_step_mode != SingleStepMode.None then
          Action.ptrace_single_step pid signal_to_pass
        else Action.ptrace_cont pid signal_to_pass
      (0, w.setDbg d, [act])
  | none => (0, w, [Action.ptrace_cont pid signal_to_pass])

/-- The `default` branch of the signal switch (debugger_exception.cpp
lines 417-569): consult the signal disposition; `catch` stops the thread,
stores `pending_signal`, and notifies; otherwise (also when the register
read for the catch path fails) the thread is resumed via
`signal_default_continue`. -/
def handle_signal_default (w : World) (pid : Nat) (info : StopInfo) :
    Int × World × List Action :=
  let config := get_signal_config w.dbg info.sig
  if config.catch_signal then
    match world_getregs w pid with
    | some sig_regs =>
        let fault_addr := info.si_addr.getD 0
        let d1 := { w.dbg with debug_state_ := .Paused, current_thread := pid }
        let d2 := ts_update d1 pid (fun s =>
          { s with regs := sig_regs, current_breakpoint_index := -1,
                   is_stopped := true,
                   pending_signal :=
                     if config.pass_signal then info.sig else 0 })
        let n := populate_exception_info sig_regs
          (signal_exception_type info.sig) pid fault_addr 0 false
        (0, w.setDbg d2, [Action.send_exception_info n])
    | none => signal_default_continue w pid info.sig config
  else signal_default_continue w pid info.sig config

/-- `Debugger::handle_exception` (debugger_exception.cpp lines 21-582),
ARM64 build, under the idealized kernel (`ptrace` resume/step/kill calls
succeed).  Classification order: clone event, interrupt stop, `SIGTRAP`,
`SIGSTOP`/`SIGTSTP`, `SIGCONT`, any other signal; thread exit prunes the
thread. -/
def handle_exception (client : Notification → Bool) (w : World) (pid : Nat)
    (status : WaitStatus) : Int × World × List Action :=
  match status with
  | .exited _ =>
      let d := { w.dbg with
        attached_threads_ := w.dbg.attached_threads_.filter (fun t => t != pid),
        thread_states_ := alist_erase w.dbg.thread_states_ pid }
      (0, w.setDbg d, [])
  | .stopped info =>
      if info.ptrace_event == PTRACE_EVENT_CLONE then
        let d :=
          match info.clone_child with
          | some new_tid =>
              ts_update { w.dbg with
                  attached_threads_ := (set_insert w.dbg.attached_threads_ new_tid) }
                new_tid (fun s => { s with is_attached := true })
          | none => w.dbg
        (0, w.setDbg d, [Action.ptrace_cont pid 0])
      else if info.ptrace_event == PTRACE_EVENT_STOP then
        (0, w, [Action.ptrace_cont pid 0])
      else if info.sig == SIGTRAP_NUM then
        handle_sigtrap client w pid info
      else if info.sig == SIGSTOP_NUM ∨ info.sig == SIGTSTP_NUM then
        if w.dbg.user_suspend_pending_ then
          let d := ts_update w.dbg pid (fun s =>
            { s with is_stopped := true, stopped_by_user := true })
          (0, w.setDbg d, [Action.kill_signal pid SIGSTOP_NUM])
        else
          let d := ts_update w.dbg pid (fun s => { s with is_stopped := true })
          (0, w.setDbg d, [])
      else if info.sig == SIGCONT_NUM then
        match alist_find w.dbg.thread_states_ pid with
        | some s =>
            if s.stopped_by_user then
              let d := { w.dbg with thread_states_ :=
                (alist_set w.dbg.thread_states_ pid
                  { s with stopped_by_user := false, is_stopped := false }) }
              (0, w.setDbg d, [Action.kill_signal pid SIGCONT_NUM])
            else (0, w, [Action.kill_signal pid SIGCONT_NUM])
        | none => (0, w, [Action.kill_signal pid SIGCONT_NUM])
      else handle_signal_default w pid info

/-! ## Resume of user-stopped threads (debugger_register.cpp lines
419-447) -/

/-- The iteration of `resume_all_user_stopped_threads_internal`: resume
each thread whose `stopped_by_user` flag is set (the `PTRACE_CONT`
succeeds under the idealized kernel), clear its flags, and count it. -/
def resume_user_stopped_go (states : List (Nat × ThreadState)) :
    List (Nat × ThreadState) × Nat × List Action :=
  match states with
  | [] => ([], 0, [])
  | (tid, st) :: rest =>
      let (rest2, cnt, acts) := resume_user_stopped_go rest
      if st.stopped_by_user then
        ((tid, { st with stopped_by_user := false, is_stopped := false }) :: rest2,
         cnt + 1, Action.ptrace_cont tid 0 :: acts)
      else ((tid, st) :: rest2, cnt, acts)

/-- `Debugger::resume_all_user_stopped_threads_internal`
(debugger_register.cpp lines 419-447): returns `resumed_count`.  This is
the value stored into the request's `result` by
`process_command_queue` for `DebugCommand::ResumeUserStoppedThreads`
(debugger_core.cpp lines 329-331). -/
def resume_all_user_stopped_threads_internal (w : World) :
    Int × World × List Action :=
  let r := resume_user_stopped_go w.dbg.thread_states_
  ((r.2.1 : Int), w.setDbg { w.dbg with thread_states_ := r.1 }, r.2.2)

/-! ## Concrete and parameterized scenario states

These are test fixtures for the theorems below: small worlds with one or
two attached threads and correctly sized tables.  The software table is
given length 2 (the software-table loops are scans over the list; its
real capacity is `MAX_SOFTWARE_BREAKPOINTS`). -/

/-- An attached, stopped thread (e.g. sitting in a break state). -/
def stoppedThreadState : ThreadState :=
  ⟨.None, 0, -1, zeroRegs, true, true, false, 0, -1, 0⟩

/-- An attached, running thread. -/
def runningThreadState : ThreadState :=
  ⟨.None, 0, -1, zeroRegs, true, false, false, 0, -1, 0⟩

/-- An attached thread stopped by a user `suspend_process`. -/
def userStoppedThreadState : ThreadState :=
  ⟨.None, 0, -1, zeroRegs, true, true, true, 0, -1, 0⟩

/-- A debugger for process `pid` with one attached, stopped thread and
empty breakpoint/watchpoint tables. -/
def baseDbg (pid : Nat) : Dbg where
  pid_ := pid
  attached_threads_ := [pid]
  debug_state_ := DebugState.Paused
  current_thread := pid
  user_suspend_pending_ := false
  removing_mask_ := 0
  watchpoint_removing := [false]
  watchpoint_active_handlers := [0]
  watchpoint_used := [false]
  watchpoint_addresses := [0]
  watchpoint_sizes := [0]
  watchpoint_types := [WatchpointType.READWRITE]
  breakpoint_used := [false, false, false, false]
  breakpoint_addresses := [0, 0, 0, 0]
  breakpoint_hit_counts := [0, 0, 0, 0]
  breakpoint_target_counts := [0, 0, 0, 0]
  breakpoint_types := [BreakpointType.HARDWARE, BreakpointType.HARDWARE,
    BreakpointType.HARDWARE, BreakpointType.HARDWARE]
  software_breakpoint_used := [false, false]
  software_breakpoint_addresses := [0, 0]
  software_breakpoint_original_bytes := [0, 0, 0, 0, 0, 0, 0, 0]
  thread_states_ := [(pid, stoppedThreadState)]
  signal_config_ := []

/-- Kernel-side record of a thread with the given registers and empty
hardware debug registers. -/
def baseTargetThread (regs : UserPtRegs) : TargetThread :=
  ⟨regs, [(0, 0)], [(0, 0), (0, 0), (0, 0), (0, 0)]⟩

/-- A world with one attached stopped thread. -/
def baseWorld (pid : Nat) (regs : UserPtRegs) (mem : Nat → Option Nat) : World :=
  ⟨baseDbg pid, [(pid, baseTargetThread regs)], mem⟩

/-- Number of watchpoint slots in use. -/
def watchpoints_in_use (d : Dbg) : Nat := d.watchpoint_used.countP (fun b => b)

/-- Number of in-use software-breakpoint entries whose address is `a`. -/
def sw_entries_at (d : Dbg) (a : Nat) : Nat :=
  (d.software_breakpoint_used.zip d.software_breakpoint_addresses).countP
    (fun p => p.1 && (p.2 == a))

/-- C1 counterexample state: exactly one watchpoint in use (which fills
the table, since `MAX_WATCHPOINTS = 1`). -/
def c1Dbg : Dbg :=
  { baseDbg 100 with
    watchpoint_used := [true]
    watchpoint_addresses := [4096]
    watchpoint_sizes := [4]
    watchpoint_types := [WatchpointType.WRITE] }

/-- C1 counterexample world. -/
def c1World : World := ⟨c1Dbg, [(100, baseTargetThread zeroRegs)], fun _ => none⟩

/-- C2 scenario: watchpoint slot 0 is in use at `[wa, wa+sz)` and is
being removed (`removing` set, bit 0 of `removing_mask_` set, the drain
wait already saw `active_handlers = handlers`); the target thread is
running. -/
def c2ParamWorld (pid wa : Nat) (sz : Int) (handlers : Int)
    (regs : UserPtRegs) (mem : Nat → Option Nat) : World :=
  ⟨{ baseDbg pid with
     watchpoint_used := [true]
     watchpoint_addresses := [wa]
     watchpoint_sizes := [sz]
     watchpoint_types := [WatchpointType.WRITE]
     watchpoint_removing := [true]
     removing_mask_ := 1
     watchpoint_active_handlers := [handlers]
     thread_states_ := [(pid, runningThreadState)] },
   [(pid, baseTargetThread regs)], mem⟩

/-- C2 concrete counterexample world. -/
def c2World : World := c2ParamWorld 100 4096 4 0 zeroRegs (fun _ => none)

/-- The SIGTRAP stop whose fault address is `fa`. -/
def sigtrapEvent (fa : Option Nat) : WaitStatus :=
  .stopped ⟨SIGTRAP_NUM, 0, fa, none⟩

/-- C3 scenario memory: one mapped word at 4096. -/
def c3Mem : Nat → Option Nat :=
  fun a => if a == 4096 then some 0xAABBCCDD11223344 else none

/-- C3 counterexample world. -/
def c3World : World := ⟨baseDbg 100, [(100, baseTargetThread zeroRegs)], c3Mem⟩

/-- C3: the world after the first `set_software_breakpoint_internal` at
4096. -/
def c3FirstWorld : World := (set_software_breakpoint_internal c3World 4096 0).2.1

/-- C4 hardware scenario: hardware breakpoint slot 0 at `a` in wait mode
(`target_count = 0`), the thread running with `pc = a`. -/
def c4HwWorld (pid a : Nat) (regs : UserPtRegs) : World :=
  ⟨{ baseDbg pid with
     breakpoint_used := [true, false, false, false]
     breakpoint_addresses := [a, 0, 0, 0]
     thread_states_ := [(pid, runningThreadState)] },
   [(pid, baseTargetThread { regs with pc := a })], fun _ => none⟩

/-- C4 software scenario: software breakpoint entry 0 at `a`; memory at
`a` holds the trap-patched word `0x11223344D4200000` and the saved
original bytes encode the instruction `0x55667788`; the thread is
running with `pc = a`. -/
def c4SwWorld (pid a : Nat) (regs : UserPtRegs) : World :=
  ⟨{ baseDbg pid with
     software_breakpoint_used := [true, false]
     software_breakpoint_addresses := [a, 0]
     software_breakpoint_original_bytes := [0x88, 0x77, 0x66, 0x55, 0, 0, 0, 0]
     thread_states_ := [(pid, runningThreadState)] },
   [(pid, baseTargetThread { regs with pc := a })],
   fun x => if x == a then some 0x11223344D4200000 else none⟩

/-- C5 counterexample world: two user-stopped threads. -/
def c5World : World :=
  ⟨{ baseDbg 100 with
     attached_threads_ := [100, 101]
     thread_states_ := [(100, userStoppedThreadState), (101, userStoppedThreadState)] },
   [], fun _ => none⟩

/-- C6 scenario memory: words at 0 and 16 readable, the word at 8
faults with `EIO`, everything else faults. -/
def c6Mem (w0 w2 : Nat) : Nat → Peek :=
  fun a => if a == 0 then .ok w0 else if a == 16 then .ok w2 else .eio

/-- C10 scenario event: a plain signal stop (no ptrace event). -/
def signalEvent (sig : Int) (si : Option Nat) : WaitStatus :=
  .stopped ⟨sig, 0, si, none⟩

/-! # Theorems -/

/-! ## Helper lemmas -/

/-- The count returned by the resume iteration is the number of
user-stopped entries. -/
theorem resume_user_stopped_go_count (l : List (Nat × ThreadState)) :
    (resume_user_stopped_go l).2.1 = l.countP (fun p => p.2.stopped_by_user) := by
  induction l with
  | nil => simp [resume_user_stopped_go]
  | cons hd tl ih =>
      obtain ⟨tid, st⟩ := hd
      by_cases h : st.stopped_by_user <;>
        simp [resume_user_stopped_go, List.countP_cons, h, ih]

/-- `set_watchpoint_internal` only ever reports `0` or `-1`. -/
theorem set_watchpoint_internal_result (w : World) (a : Nat) (sz : Int)
    (ty : WatchpointType) :
    (set_watchpoint_internal w a sz ty).1 = 0 ∨
      (set_watchpoint_internal w a sz ty).1 = -1 := by
  unfold set_watchpoint_internal
  rcases find_free_watchpoint w.dbg with _ | i
  · right; rfl
  · simp only
    rcases hstop : stop_all_threads w.dbg 0 with ⟨d1, stopped, already⟩
    by_cases hemp : stopped.isEmpty <;> simp only [hemp]
    · right; rfl
    · rcases happ : apply_watchpoint_to_threads (w.setDbg d1) stopped i a sz ty
        with ⟨w2, success⟩
      rcases hres : resume_threads w2.dbg (threads_to_resume stopped already)
        with ⟨d3, acts⟩
      by_cases hsucc : success <;> simp [hsucc]

/-! ## C5: request results -/

/-- Claim C5: every request processed by the command queue completes
with an integer result where 0 means success and a negative integer
means failure; no request ever completes with a positive result,
including `ResumeUserStoppedThreads`.  COUNTEREXAMPLE: with two
user-stopped threads, `ResumeUserStoppedThreads` completes with result
`2`, a positive integer (the resumed-thread count stored into
`request->result` by debugger_core.cpp line 330). -/
theorem c5_positive_result_counterexample :
    (resume_all_user_stopped_threads_internal c5World).1 = 2 ∧ (2 : Int) > 0 := by
  constructor
  · rfl
  · decide

/-- Claim C5 (amended): every request completes with `0` on success and
`-1` on failure — except `ResumeUserStoppedThreads`, whose result is the
(non-negative) count of threads it resumed, which is positive whenever at
least one thread had `stopped_by_user` set. -/
theorem c5_request_result_amended :
    (∀ w : World,
      (resume_all_user_stopped_threads_internal w).1 =
        (w.dbg.thread_states_.countP (fun p => p.2.stopped_by_user) : Int) ∧
      0 ≤ (resume_all_user_stopped_threads_internal w).1) ∧
    (∀ (w : World) (a : Nat) (sz : Int) (ty : WatchpointType),
      (set_watchpoint_internal w a sz ty).1 = 0 ∨
        (set_watchpoint_internal w a sz ty).1 = -1) := by
  constructor
  · intro w
    constructor
    · simp [resume_all_user_stopped_threads_internal,
        resume_user_stopped_go_count]
    · simp [resume_all_user_stopped_threads_internal]
  · exact set_watchpoint_internal_result

/-! ## C7: watchpoint size clamping -/

/-- Claim C7: for every `set_watchpoint` size outside `{1,2,4,8}` the
programmed length encoding is the 4-byte one, on both ARM64 and x86_64.
COUNTEREXAMPLE: size 5 (and 7, 16) yields the 8-byte encoding, not the
4-byte one, on both architectures. -/
theorem c7_clamp_counterexample :
    arm64_watchpoint_length 5 = ARM_BREAKPOINT_LEN_8 ∧
    ARM_BREAKPOINT_LEN_8 ≠ ARM_BREAKPOINT_LEN_4 ∧
    x86_watchpoint_length 5 = X86_DR7_LEN_8 ∧
    X86_DR7_LEN_8 ≠ X86_DR7_LEN_4 ∧
    arm64_watchpoint_length 7 = ARM_BREAKPOINT_LEN_8 ∧
    arm64_watchpoint_length 16 = ARM_BREAKPOINT_LEN_8 ∧
    x86_watchpoint_length 16 = X86_DR7_LEN_8 := by decide

/-- Claim C7 (amended): the size is bucketed upward, identically on both
architectures: sizes `<= 1` get the 1-byte encoding, size 2 the 2-byte
encoding, sizes 3-4 the 4-byte encoding (so only size 3 "clamps to 4"),
and sizes `>= 5` (5, 6, 7 and everything above 8) get the 8-byte
encoding. -/
theorem c7_watchpoint_length_amended : ∀ size : Int,
    (size = 3 ∨ size = 4 →
      arm64_watchpoint_length size = ARM_BREAKPOINT_LEN_4 ∧
      x86_watchpoint_length size = X86_DR7_LEN_4) ∧
    (5 ≤ size →
      arm64_watchpoint_length size = ARM_BREAKPOINT_LEN_8 ∧
      x86_watchpoint_length size = X86_DR7_LEN_8) ∧
    (size ≤ 1 →
      arm64_watchpoint_length size = ARM_BREAKPOINT_LEN_1 ∧
      x86_watchpoint_length size = X86_DR7_LEN_1) ∧
    (size = 2 →
      arm64_watchpoint_length size = ARM_BREAKPOINT_LEN_2 ∧
      x86_watchpoint_length size = X86_DR7_LEN_2) := by
  intro size
  refine ⟨?_, ?_, ?_, ?_⟩
  · rintro (rfl | rfl) <;> decide
  · intro h
    unfold arm64_watchpoint_length x86_watchpoint_length
    rw [if_neg (by omega), if_neg (by omega), if_neg (by omega),
      if_neg (by omega), if_neg (by omega), if_neg (by omega)]
    exact ⟨rfl, rfl⟩
  · intro h
    unfold arm64_watchpoint_length x86_watchpoint_length
    rw [if_pos h, if_pos h]
    exact ⟨rfl, rfl⟩
  · rintro rfl; decide

/-- Witness for the amended C7 theorem at sizes 5 and 3. -/
theorem c7_watchpoint_length_amended_witness :
    (arm64_watchpoint_length 5 = ARM_BREAKPOINT_LEN_8 ∧
      x86_watchpoint_length 5 = X86_DR7_LEN_8) ∧
    (arm64_watchpoint_length 3 = ARM_BREAKPOINT_LEN_4 ∧
      x86_watchpoint_length 3 = X86_DR7_LEN_4) :=
  ⟨(c7_watchpoint_length_amended 5).2.1 (by decide),
   (c7_watchpoint_length_amended 3).1 (Or.inl rfl)⟩

/-! ## C8: exec-failure exit code -/

/-- Claim C8: when the forked child's exec fails, the child exits with
code 127.  COUNTEREXAMPLE: in both `spawn_process_internal` and
`spawn_process_with_pty_internal` the child runs `_exit(1)` after a
failed `execvp`, so the exit code is 1, not 127. -/
theorem c8_exit_code_counterexample :
    spawn_child true false ≠ ChildOutcome.exited 127 ∧
    spawn_child_with_pty true false ≠ ChildOutcome.exited 127 ∧
    spawn_child true false = ChildOutcome.exited 1 ∧
    spawn_child_with_pty true false = ChildOutcome.exited 1 := by decide

/-- Claim C8 (amended): in `spawn_process` and `spawn_process_with_pty`,
when the forked child's exec of the target fails, the child exits with
exit code 1 (regardless of whether `PTRACE_TRACEME` succeeded, since a
`PTRACE_TRACEME` failure also exits 1). -/
theorem c8_exec_failure_exit_amended : ∀ traceme_ok : Bool,
    spawn_child traceme_ok false = ChildOutcome.exited 1 ∧
    spawn_child_with_pty traceme_ok false = ChildOutcome.exited 1 := by decide

example :
    (read_memory_internal (c6Mem 0x1111111111111111 0x2222222222222222) 0 24
        (List.replicate 24 0xAB)).2.getD 8 0 = 0xAB := by
  simp [read_memory_internal, read_memory_loop, c6Mem, set_bytes, word_size,
    List.replicate, List.set]

example :
    (read_memory_internal (c6Mem 0x1111111111111111 0x2222222222222222) 0 24
        (List.replicate 24 0xAB)).1 = 24 := by
  simp [read_memory_internal, read_memory_loop, c6Mem, set_bytes, word_size,
    List.replicate, List.set]

/-! ## C6: partial memory reads -/

/-- Claim C6: over a partially readable region, readable words are
copied, each unreadable word is skipped with the corresponding output
bytes set to zero, reading continues, and the read is abandoned only
after 3 consecutive word failures.  COUNTEREXAMPLE to the zero-fill
part: reading 24 bytes where the middle word faults leaves the output
bytes of the skipped word at their previous value `0xAB`, not zero
(the source never writes to the buffer for a skipped word). -/
theorem c6_zero_fill_counterexample :
    (read_memory_internal (c6Mem 0x1111111111111111 0x2222222222222222) 0 24
        (List.replicate 24 0xAB)).2.getD 8 0 = 0xAB ∧
    (0xAB : Nat) ≠ 0 ∧
    (read_memory_internal (c6Mem 0x1111111111111111 0x2222222222222222) 0 24
        (List.replicate 24 0xAB)).1 = 24 := by
  refine ⟨?_, by decide, ?_⟩ <;>
    simp [read_memory_internal, read_memory_loop, c6Mem, set_bytes, word_size,
      List.replicate, List.set]

/-- Claim C6 (amended): the read does not fail outright on a partially
readable region: readable words are copied into the buffer, each
unreadable word is skipped with the corresponding bytes of the output
buffer left unchanged (whatever the caller put there — not zeroed), the
read continues after a faulted word, and it is abandoned only after 3
consecutive word-read failures (still returning the byte count covered
so far, which includes the skipped words).  Part one: a 24-byte read
whose middle word faults copies the two readable words and leaves the
middle 8 buffer bytes at `b`.  Part two: when every word faults, the
loop gives up after exactly 3 consecutive word failures with the buffer
untouched. -/
theorem c6_partial_read_amended :
    (∀ w0 w2 b : Nat,
      (read_memory_internal (c6Mem w0 w2) 0 24
          [b, b, b, b, b, b, b, b, b, b, b, b, b, b, b, b, b, b, b, b, b, b, b, b]) =
      ((24 : Int),
       [w0 % 256, (w0 >>> 8) % 256, (w0 >>> 16) % 256, (w0 >>> 24) % 256,
        (w0 >>> 32) % 256, (w0 >>> 40) % 256, (w0 >>> 48) % 256, (w0 >>> 56) % 256,
        b, b, b, b, b, b, b, b,
        w2 % 256, (w2 >>> 8) % 256, (w2 >>> 16) % 256, (w2 >>> 24) % 256,
        (w2 >>> 32) % 256, (w2 >>> 40) % 256, (w2 >>> 48) % 256, (w2 >>> 56) % 256])) ∧
    (∀ buffer : List Nat,
      read_memory_internal (fun _ => Peek.eio) 0 100 buffer = ((24 : Int), buffer)) := by
  constructor
  · intro w0 w2 b
    simp [read_memory_internal, read_memory_loop, c6Mem, set_bytes, word_size,
      List.set]
  · intro buffer
    unfold read_memory_internal
    simp [read_memory_loop, word_size]

/-! ## C1: watchpoint table capacity -/

/-- Claim C1: the hardware watchpoint table has 4 slots; `set_watchpoint`
finds a free slot whenever fewer than 4 watchpoints are in use and fails
for lack of a slot only when 4 are in use.  COUNTEREXAMPLE: the table
has `MAX_WATCHPOINTS = 1` slot ("Limited to 1 for stability",
debugger.h line 131): with a single watchpoint in use — fewer than 4 —
`set_watchpoint_internal` already fails with no free slot. -/
theorem c1_watchpoint_capacity_counterexample :
    MAX_WATCHPOINTS = 1 ∧
    watchpoints_in_use c1Dbg = 1 ∧ 1 < 4 ∧
    find_free_watchpoint c1Dbg = none ∧
    (set_watchpoint_internal c1World 8192 4 WatchpointType.WRITE).1 = -1 := by
  decide

/-- Claim C1 (amended): the hardware watchpoint table is a
fixed-capacity array of `MAX_WATCHPOINTS = 1` slot: the table is full
iff slot 0 is in use; with the table empty, `set_watchpoint` allocates
the lowest (only) free slot 0 and succeeds; and it fails for lack of a
free slot exactly when 1 watchpoint is already in use. -/
theorem c1_watchpoint_capacity_amended :
    MAX_WATCHPOINTS = 1 ∧
    (∀ d : Dbg, find_free_watchpoint d = none ↔
      d.watchpoint_used.getD 0 false = true) ∧
    (∀ (pid a : Nat) (sz : Int) (ty : WatchpointType) (regs : UserPtRegs)
        (mem : Nat → Option Nat), pid ≠ 0 →
      (set_watchpoint_internal (baseWorld pid regs mem) a sz ty).1 = 0 ∧
      (set_watchpoint_internal (baseWorld pid regs mem) a sz ty).2.1.dbg.watchpoint_used
        = [true] ∧
      (set_watchpoint_internal (baseWorld pid regs mem) a sz ty).2.1.dbg.watchpoint_addresses
        = [a]) ∧
    (∀ (w : World) (a : Nat) (sz : Int) (ty : WatchpointType),
      w.dbg.watchpoint_used.getD 0 false = true →
      (set_watchpoint_internal w a sz ty).1 = -1) := by
  refine ⟨rfl, ?_, ?_, ?_⟩
  · intro d
    unfold find_free_watchpoint MAX_WATCHPOINTS
    cases h : d.watchpoint_used.getD 0 false <;>
      rw [List.getD_eq_getElem?_getD] at h <;>
      simp [List.range_succ, List.find?, h]
  · intro pid a sz ty regs mem hpid
    refine ⟨?_, ?_, ?_⟩ <;>
      simp [set_watchpoint_internal, find_free_watchpoint, MAX_WATCHPOINTS,
        List.range_succ, baseWorld, baseDbg, stop_all_threads, stop_all_threads_go,
        alist_find, stoppedThreadState, hpid, threads_to_resume, resume_threads,
        apply_watchpoint_to_threads, apply_watchpoint_hw, baseTargetThread,
        alist_set, World.setDbg, ts_update, alist_update]
  · intro w a sz ty h
    have hff : find_free_watchpoint w.dbg = none := by
      unfold find_free_watchpoint MAX_WATCHPOINTS
      rw [List.getD_eq_getElem?_getD] at h
      simp [List.range_succ, List.find?, h]
    unfold set_watchpoint_internal
    rw [hff]

/-- Witness for the amended C1 theorem: a concrete successful set on an
empty table, and a concrete capacity failure with one slot in use. -/
theorem c1_watchpoint_capacity_amended_witness :
    (set_watchpoint_internal (baseWorld 100 zeroRegs (fun _ => none)) 4096 4
        WatchpointType.WRITE).1 = 0 ∧
    (set_watchpoint_internal c1World 8192 4 WatchpointType.WRITE).1 = -1 :=
  ⟨(c1_watchpoint_capacity_amended.2.2.1 100 4096 4 WatchpointType.WRITE
      zeroRegs (fun _ => none) (by decide)).1,
   c1_watchpoint_capacity_amended.2.2.2 c1World 8192 4 WatchpointType.WRITE
     (by decide)⟩

/-! ## C3: software-breakpoint uniqueness -/

/-- Claim C3: at most one in-use software-breakpoint entry per address,
preserved by every operation including `set_breakpoint(a, software)`
when one is already installed at `a`.  COUNTEREXAMPLE:
`set_software_breakpoint_internal` never checks for an existing entry at
the address; a second set at 4096 succeeds, allocates a second in-use
entry with the same address (two entries at 4096), and — since the word
it peeks is already trap-patched — records the `BRK #0` trap itself as
the "original" instruction bytes of the new entry. -/
theorem c3_duplicate_software_breakpoint_counterexample :
    (set_software_breakpoint_internal c3World 4096 0).1 = 0 ∧
    sw_entries_at c3FirstWorld.dbg 4096 = 1 ∧
    (set_software_breakpoint_internal c3FirstWorld 4096 0).1 = 0 ∧
    sw_entries_at (set_software_breakpoint_internal c3FirstWorld 4096 0).2.1.dbg 4096 = 2 ∧
    sw_original_word (set_software_breakpoint_internal c3FirstWorld 4096 0).2.1.dbg 1
      = brk_instruction := by decide

/-- Claim C3 (amended): installing a software breakpoint at a fresh
address creates exactly one in-use entry for that address, but the
per-address uniqueness invariant is not preserved by duplicate set
operations: calling `set_breakpoint(a, software)` again while a software
breakpoint is already installed at `a` succeeds and leaves two in-use
entries with address `a`.  (Uniqueness therefore holds only as long as
the client never issues a duplicate set.) -/
theorem c3_software_breakpoint_unique_amended :
    ∀ (pid a word : Nat) (mem : Nat → Option Nat), pid ≠ 0 →
      mem a = some word →
      ((set_software_breakpoint_internal
          ⟨baseDbg pid, [(pid, baseTargetThread zeroRegs)], mem⟩ a 0).1 = 0) ∧
      (sw_entries_at (set_software_breakpoint_internal
          ⟨baseDbg pid, [(pid, baseTargetThread zeroRegs)], mem⟩ a 0).2.1.dbg a = 1) ∧
      ((set_software_breakpoint_internal
          (set_software_breakpoint_internal
            ⟨baseDbg pid, [(pid, baseTargetThread zeroRegs)], mem⟩ a 0).2.1
          a 0).1 = 0) ∧
      (sw_entries_at (set_software_breakpoint_internal
          (set_software_breakpoint_internal
            ⟨baseDbg pid, [(pid, baseTargetThread zeroRegs)], mem⟩ a 0).2.1
          a 0).2.1.dbg a = 2) := by
  intro pid a word mem hpid hmem
  refine ⟨?_, ?_, ?_, ?_⟩ <;>
    simp [set_software_breakpoint_internal, stop_all_threads, stop_all_threads_go,
      alist_find, alist_set, ts_update, alist_update, baseDbg, stoppedThreadState,
      baseTargetThread, hpid, hmem, threads_to_resume, resume_threads,
      world_poke, World.setDbg, sw_entries_at, word_low_bytes, set_flat_bytes,
      List.range_succ, List.find?, sw_original_word, brk_instruction]

/-- Witness for the amended C3 theorem at a concrete world. -/
theorem c3_software_breakpoint_unique_amended_witness :
    ((set_software_breakpoint_internal
        ⟨baseDbg 100, [(100, baseTargetThread zeroRegs)], c3Mem⟩ 4096 0).1 = 0) ∧
    (sw_entries_at (set_software_breakpoint_internal
        ⟨baseDbg 100, [(100, baseTargetThread zeroRegs)], c3Mem⟩ 4096 0).2.1.dbg 4096 = 1) ∧
    ((set_software_breakpoint_internal
        (set_software_breakpoint_internal
          ⟨baseDbg 100, [(100, baseTargetThread zeroRegs)], c3Mem⟩ 4096 0).2.1
        4096 0).1 = 0) ∧
    (sw_entries_at (set_software_breakpoint_internal
        (set_software_breakpoint_internal
          ⟨baseDbg 100, [(100, baseTargetThread zeroRegs)], c3Mem⟩ 4096 0).2.1
        4096 0).2.1.dbg 4096 = 2) :=
  c3_software_breakpoint_unique_amended 100 4096 0xAABBCCDD11223344 c3Mem
    (by decide) (by decide)

/-! ## C2: watchpoint-removal drain -/

/-- Claim C2: a watchpoint hit on a slot whose `removing` flag is set is
treated as spurious — the thread is resumed and no `on_exception`
notification for that hit is delivered; after the drain, no event for
the slot is presented.  COUNTEREXAMPLE: with slot 0 removing
(`removing_mask_` bit 0 set) and the drain complete
(`active_handlers = 0`), a hit on slot 0 still delivers the watchpoint
`on_exception` notification: `handle_exception` sends it
(debugger_exception.cpp line 238) before `handle_watchpoint_hit` checks
the removing mask (debugger_watchpoint.cpp line 249). -/
theorem c2_removing_notification_counterexample :
    c2World.dbg.watchpoint_removing = [true] ∧
    c2World.dbg.removing_mask_ &&& (1 <<< 0) ≠ 0 ∧
    c2World.dbg.watchpoint_active_handlers = [0] ∧
    (handle_exception (fun _ => true) c2World 100 (sigtrapEvent (some 4098))).2.2 =
      [Action.send_exception_info
        (populate_exception_info zeroRegs EXCEPTION_WATCHPOINT 100 4096 0 false),
       Action.ptrace_cont 100 0] := by decide

/-- Claim C2 (amended): for a watchpoint hit on a slot whose removing
bit is set, the hitting thread is resumed and no handler is entered —
`active_handlers` is not incremented, the thread is left out of any
single-step mode, and the handler returns 0 — but the `on_exception`
notification for the hit has already been sent before the removing
check, so during the removal drain window an event for the slot is
still presented to the client (the trace is exactly the notification
followed by the resume). -/
theorem c2_removing_drain_amended :
    ∀ (client : Notification → Bool) (pid wa fa : Nat) (sz handlers : Int)
      (regs : UserPtRegs) (mem : Nat → Option Nat),
      wa ≤ fa → fa < wa + sz.toNat → fa ≠ 0 →
      (handle_exception client (c2ParamWorld pid wa sz handlers regs mem) pid
        (sigtrapEvent (some fa))).1 = 0 ∧
      (handle_exception client (c2ParamWorld pid wa sz handlers regs mem) pid
        (sigtrapEvent (some fa))).2.2 =
        [Action.send_exception_info
          (populate_exception_info regs EXCEPTION_WATCHPOINT pid wa 0 false),
         Action.ptrace_cont pid 0] ∧
      (handle_exception client (c2ParamWorld pid wa sz handlers regs mem) pid
        (sigtrapEvent (some fa))).2.1.dbg.watchpoint_active_handlers = [handlers] ∧
      thread_step_mode (handle_exception client
          (c2ParamWorld pid wa sz handlers regs mem) pid
          (sigtrapEvent (some fa))).2.1.dbg pid = SingleStepMode.None := by
  intro client pid wa fa sz handlers regs mem h1 h2 h3
  refine ⟨?_, ?_, ?_, ?_⟩ <;>
    simp [handle_exception, handle_sigtrap, sigtrap_is_step_completion,
      classify_watchpoint, handle_watchpoint_hit, thread_step_mode,
      populate_exception_info, c2ParamWorld, baseDbg, runningThreadState,
      baseTargetThread, alist_find, ts_update, alist_update, alist_set,
      World.setDbg, world_getregs, sigtrapEvent, SIGTRAP_NUM, SIGSTOP_NUM,
      SIGTSTP_NUM, SIGCONT_NUM, PTRACE_EVENT_CLONE, PTRACE_EVENT_STOP,
      MAX_WATCHPOINTS, List.range_succ, List.find?, EXCEPTION_WATCHPOINT,
      h1, h2, h3]

/-- Witness for the amended C2 theorem at a concrete removal-window
hit. -/
theorem c2_removing_drain_amended_witness :
    (handle_exception (fun _ => true) (c2ParamWorld 100 4096 4 0 zeroRegs
        (fun _ => none)) 100 (sigtrapEvent (some 4098))).1 = 0 ∧
    (handle_exception (fun _ => true) (c2ParamWorld 100 4096 4 0 zeroRegs
        (fun _ => none)) 100 (sigtrapEvent (some 4098))).2.2 =
      [Action.send_exception_info
        (populate_exception_info zeroRegs EXCEPTION_WATCHPOINT 100 4096 0 false),
       Action.ptrace_cont 100 0] ∧
    (handle_exception (fun _ => true) (c2ParamWorld 100 4096 4 0 zeroRegs
        (fun _ => none)) 100 (sigtrapEvent (some 4098))).2.1.dbg.watchpoint_active_handlers
      = [0] ∧
    thread_step_mode (handle_exception (fun _ => true)
        (c2ParamWorld 100 4096 4 0 zeroRegs (fun _ => none)) 100
        (sigtrapEvent (some 4098))).2.1.dbg 100 = SingleStepMode.None :=
  c2_removing_drain_amended (fun _ => true) 100 4096 4098 4 0 zeroRegs
    (fun _ => none) (by decide) (by decide) (by decide)

/-! ## C4: upcall-driven breakpoint semantics -/

/-- Claim C4: on any breakpoint hit, an `on_exception` return of false
makes the engine silently continue — stepping the thread over the
breakpoint, re-arming it, resuming, entering no break state; a return
of true leaves the thread stopped in `BreakpointHit`.
COUNTEREXAMPLE (hardware breakpoint, upcall returns false): the engine
issues a plain `PTRACE_CONT` with no step-over and no
disarm/re-arm (the thread's hardware debug registers are untouched), and
`debug_state_` has been set to `BreakpointHit` before the upcall and is
left there — `is_in_break_state()` reports true after the "silent
continue". -/
theorem c4_hardware_silent_continue_counterexample :
    (handle_exception (fun _ => false) (c4HwWorld 100 4096 zeroRegs) 100
        (sigtrapEvent none)).2.2 =
      [Action.send_exception_info (populate_exception_info
        { zeroRegs with pc := 4096 } EXCEPTION_BREAKPOINT 100 0 0 false),
       Action.ptrace_cont 100 0] ∧
    is_in_break_state (handle_exception (fun _ => false)
        (c4HwWorld 100 4096 zeroRegs) 100 (sigtrapEvent none)).2.1.dbg = true ∧
    alist_find (handle_exception (fun _ => false) (c4HwWorld 100 4096 zeroRegs)
        100 (sigtrapEvent none)).2.1.target 100 =
      some (baseTargetThread { zeroRegs with pc := 4096 }) := by decide

/-- Claim C4 (amended): the upcall semantics depend on the breakpoint
kind.  (i) Hardware breakpoint in wait mode, upcall true: one
notification, the thread remains stopped in mode `Breakpoint`, and the
debugger is in `BreakpointHit`.  (ii) Hardware breakpoint, upcall
false: the notification is followed by a plain `PTRACE_CONT` — no
step-over and no re-arm (the thread's debug registers are unchanged) —
and `debug_state_` nevertheless remains `BreakpointHit`.  (iii)
Software breakpoint, upcall false: the engine does transparently step
over — it restores the original instruction bytes in memory and
single-steps (mode `SoftwareBreakpointContinue`); on the following
step-completion event it sends a single-step notification, re-inserts
the trap bytes, resumes the thread with `PTRACE_CONT`, and the debugger
state becomes `Running`. -/
theorem c4_breakpoint_upcall_semantics_amended :
    ∀ (pid a : Nat) (regs : UserPtRegs),
    ((handle_exception (fun _ => true) (c4HwWorld pid a regs) pid (sigtrapEvent none)).1 = 0 ∧
     (handle_exception (fun _ => true) (c4HwWorld pid a regs) pid (sigtrapEvent none)).2.2 =
       [Action.send_exception_info (populate_exception_info { regs with pc := a }
         EXCEPTION_BREAKPOINT pid 0 0 false)] ∧
     (handle_exception (fun _ => true) (c4HwWorld pid a regs) pid
       (sigtrapEvent none)).2.1.dbg.debug_state_ = DebugState.BreakpointHit ∧
     thread_is_stopped (handle_exception (fun _ => true) (c4HwWorld pid a regs) pid
       (sigtrapEvent none)).2.1.dbg pid = true ∧
     thread_step_mode (handle_exception (fun _ => true) (c4HwWorld pid a regs) pid
       (sigtrapEvent none)).2.1.dbg pid = SingleStepMode.Breakpoint) ∧
    ((handle_exception (fun _ => false) (c4HwWorld pid a regs) pid (sigtrapEvent none)).1 = 0 ∧
     (handle_exception (fun _ => false) (c4HwWorld pid a regs) pid (sigtrapEvent none)).2.2 =
       [Action.send_exception_info (populate_exception_info { regs with pc := a }
         EXCEPTION_BREAKPOINT pid 0 0 false),
        Action.ptrace_cont pid 0] ∧
     (handle_exception (fun _ => false) (c4HwWorld pid a regs) pid
       (sigtrapEvent none)).2.1.dbg.debug_state_ = DebugState.BreakpointHit ∧
     thread_is_stopped (handle_exception (fun _ => false) (c4HwWorld pid a regs) pid
       (sigtrapEvent none)).2.1.dbg pid = false ∧
     alist_find (handle_exception (fun _ => false) (c4HwWorld pid a regs) pid
       (sigtrapEvent none)).2.1.target pid =
         some (baseTargetThread { regs with pc := a })) ∧
    ((handle_exception (fun _ => false) (c4SwWorld pid a regs) pid (sigtrapEvent none)).1 = 0 ∧
     (handle_exception (fun _ => false) (c4SwWorld pid a regs) pid (sigtrapEvent none)).2.2 =
       [Action.send_exception_info (populate_exception_info { regs with pc := a }
         EXCEPTION_BREAKPOINT pid 0 0 false),
        Action.ptrace_single_step pid 0] ∧
     (handle_exception (fun _ => false) (c4SwWorld pid a regs) pid
       (sigtrapEvent none)).2.1.mem a = some 0x1122334455667788 ∧
     thread_step_mode (handle_exception (fun _ => false) (c4SwWorld pid a regs) pid
       (sigtrapEvent none)).2.1.dbg pid = SingleStepMode.SoftwareBreakpointContinue) ∧
    ((handle_exception (fun _ => false)
       (handle_exception (fun _ => false) (c4SwWorld pid a regs) pid (sigtrapEvent none)).2.1
       pid (sigtrapEvent none)).2.2 =
       [Action.send_exception_info (populate_exception_info { regs with pc := a }
         EXCEPTION_SINGLESTEP pid 0 5 false),
        Action.ptrace_cont pid 0] ∧
     (handle_exception (fun _ => false)
       (handle_exception (fun _ => false) (c4SwWorld pid a regs) pid (sigtrapEvent none)).2.1
       pid (sigtrapEvent none)).2.1.dbg.debug_state_ = DebugState.Running ∧
     (handle_exception (fun _ => false)
       (handle_exception (fun _ => false) (c4SwWorld pid a regs) pid (sigtrapEvent none)).2.1
       pid (sigtrapEvent none)).2.1.mem a = some 0x11223344D4200000) := by
  intro pid a regs
  refine ⟨⟨?_, ?_, ?_, ?_, ?_⟩, ⟨?_, ?_, ?_, ?_, ?_⟩, ⟨?_, ?_, ?_, ?_⟩,
    ⟨?_, ?_, ?_⟩⟩ <;>
  · simp [handle_exception, handle_sigtrap, sigtrap_is_step_completion,
        singlestep_is_trace, handle_single_step, continue_breakpoint_single_step,
        complete_watchpoint_single_step, reinsert_software_breakpoint,
        classify_watchpoint, find_breakpoint_index, sw_find_index,
        handle_breakpoint_hit, handle_software_breakpoint_continue,
        sw_original_word, world_poke, thread_step_mode, thread_is_stopped,
        SingleStepMode.toNat, populate_exception_info, c4HwWorld, c4SwWorld,
        baseDbg, runningThreadState, baseTargetThread, alist_find, ts_update,
        alist_update, alist_set, World.setDbg, world_getregs, target_update,
        sigtrapEvent, SIGTRAP_NUM, SIGSTOP_NUM, SIGTSTP_NUM, SIGCONT_NUM,
        PTRACE_EVENT_CLONE, PTRACE_EVENT_STOP, MAX_WATCHPOINTS, MAX_BREAKPOINTS,
        MAX_SOFTWARE_BREAKPOINTS, List.range_succ, List.find?,
        EXCEPTION_BREAKPOINT, EXCEPTION_SINGLESTEP, brk_instruction]
    try decide

set_option maxHeartbeats 2000000 in
theorem arm64_register_roundtrip_frame (regs : UserPtRegs) (name : String)
    (v : Nat) (name2 : String) (h : name ∈ arm64CanonicalRegisters)
    (h2 : name2 ∈ arm64CanonicalRegisters) (hne : name2 ≠ name) :
    ((arm64_write_register regs name v).bind
      (fun r2 => arm64_read_register r2 name) = some v) ∧
    ((arm64_write_register regs name v).bind
      (fun r2 => arm64_read_register r2 name2) = arm64_read_register regs name2) := by
  simp only [arm64CanonicalRegisters] at h h2
  fin_cases h <;> fin_cases h2 <;>
    first
      | exact absurd rfl hne
      | exact ⟨rfl, rfl⟩

set_option maxHeartbeats 2000000 in
theorem x86_register_roundtrip_frame (regs : UserRegsStruct) (name : String)
    (v : Nat) (name2 : String) (h : name ∈ x86CanonicalRegisters)
    (h2 : name2 ∈ x86CanonicalRegisters) (hne : name2 ≠ name) :
    ((x86_write_register regs name v).bind
      (fun r2 => x86_read_register r2 name) = some v) ∧
    ((x86_write_register regs name v).bind
      (fun r2 => x86_read_register r2 name2) = x86_read_register regs name2) := by
  simp only [x86CanonicalRegisters] at h h2
  fin_cases h <;> fin_cases h2 <;>
    first
      | exact absurd rfl hne
      | exact ⟨rfl, rfl⟩

/-! ## C9: register write/read round trip -/

/-- Claim C9: while a thread is stopped, for every canonical register
name `r` and 64-bit value `v`, `write_register(t, r, v)` followed by
`read_register(t, r)` returns `v`, and no register other than `r` is
modified.  CONFIRMED on the name-dispatch core of
`write_register_internal` / `read_register_internal` for both
architectures: writing `r` then reading `r` yields the written value,
and reading any other canonical register `r2` after the write gives the
same answer as before it (`read_register` itself performs only a
`PTRACE_GETREGS`, modifying nothing). -/
theorem c9_register_roundtrip :
    (∀ (regs : UserPtRegs) (name : String) (v : Nat) (name2 : String),
      name ∈ arm64CanonicalRegisters → name2 ∈ arm64CanonicalRegisters →
      name2 ≠ name →
      ((arm64_write_register regs name v).bind
        (fun r2 => arm64_read_register r2 name) = some v) ∧
      ((arm64_write_register regs name v).bind
        (fun r2 => arm64_read_register r2 name2) = arm64_read_register regs name2)) ∧
    (∀ (regs : UserRegsStruct) (name : String) (v : Nat) (name2 : String),
      name ∈ x86CanonicalRegisters → name2 ∈ x86CanonicalRegisters →
      name2 ≠ name →
      ((x86_write_register regs name v).bind
        (fun r2 => x86_read_register r2 name) = some v) ∧
      ((x86_write_register regs name v).bind
        (fun r2 => x86_read_register r2 name2) = x86_read_register regs name2)) :=
  ⟨fun regs name v name2 h h2 hne =>
      arm64_register_roundtrip_frame regs name v name2 h h2 hne,
   fun regs name v name2 h h2 hne =>
      x86_register_roundtrip_frame regs name v name2 h h2 hne⟩

/-- Witness for the C9 theorem at `pc`/`x0` (ARM64) and `rip`/`rax`
(x86_64) on the all-zero register files. -/
theorem c9_register_roundtrip_witness :
    (((arm64_write_register zeroRegs "pc" 77).bind
        (fun r2 => arm64_read_register r2 "pc") = some 77) ∧
     ((arm64_write_register zeroRegs "pc" 77).bind
        (fun r2 => arm64_read_register r2 "x0") =
          arm64_read_register zeroRegs "x0")) ∧
    (((x86_write_register ⟨0, 0, 0, 0, 0, 0, 0, 0, 0, 0, 0, 0, 0, 0, 0, 0, 0,
          0, 0, 0, 0, 0, 0, 0, 0, 0⟩ "rip" 88).bind
        (fun r2 => x86_read_register r2 "rip") = some 88) ∧
     ((x86_write_register ⟨0, 0, 0, 0, 0, 0, 0, 0, 0, 0, 0, 0, 0, 0, 0, 0, 0,
          0, 0, 0, 0, 0, 0, 0, 0, 0⟩ "rip" 88).bind
        (fun r2 => x86_read_register r2 "rax") =
          x86_read_register ⟨0, 0, 0, 0, 0, 0, 0, 0, 0, 0, 0, 0, 0, 0, 0, 0, 0,
            0, 0, 0, 0, 0, 0, 0, 0, 0⟩ "rax")) :=
  ⟨c9_register_roundtrip.1 zeroRegs "pc" 77 "x0" (by decide) (by decide)
     (by decide),
   c9_register_roundtrip.2 ⟨0, 0, 0, 0, 0, 0, 0, 0, 0, 0, 0, 0, 0, 0, 0, 0, 0,
       0, 0, 0, 0, 0, 0, 0, 0, 0⟩ "rip" 88 "rax" (by decide) (by decide)
     (by decide)⟩

theorem alist_find_set_self {κ α : Type} [BEq κ] [LawfulBEq κ]
    (m : List (κ × α)) (k : κ) (v : α) :
    alist_find (alist_set m k v) k = some v := by
  induction m with
  | nil => simp [alist_set, alist_find, List.find?]
  | cons hd tl ih =>
      obtain ⟨k2, v2⟩ := hd
      by_cases h : k2 == k
      · simp [alist_set, alist_find, List.find?, h]
      · simp only [alist_set, h, ite_false]
        simp only [alist_find, List.find?, h] at ih ⊢
        exact ih

/-! ## C10: default signal disposition -/

/-- Claim C10: a signal with no entry in the signal-disposition map gets
`SignalConfig(catch=false, pass=false)`, and the event loop resumes a
thread stopped on such a signal immediately with the signal suppressed
and without notifying the client — except SIGPWR (30) and SIGXCPU (24),
which are always delivered.  CONFIRMED for the signals that reach the
disposition path, i.e. every signal other than SIGTRAP/SIGSTOP/SIGTSTP/
SIGCONT (which the demultiplexer classifies by dedicated rules before
consulting the disposition map): the result is a single `PTRACE_CONT`
delivering `sig` exactly when `sig` is 30 or 24 and `0` (suppressed)
otherwise, with no `on_exception` upcall, and the thread is marked
running. -/
theorem c10_default_signal_disposition :
    ∀ (client : Notification → Bool) (w : World) (pid : Nat) (sig : Int)
      (si : Option Nat) (s : ThreadState),
      alist_find w.dbg.signal_config_ sig = none →
      sig ≠ SIGTRAP_NUM → sig ≠ SIGSTOP_NUM → sig ≠ SIGTSTP_NUM →
      sig ≠ SIGCONT_NUM →
      alist_find w.dbg.thread_states_ pid = some s →
      s.single_step_mode = SingleStepMode.None →
      get_signal_config w.dbg sig = ⟨false, false⟩ ∧
      (handle_exception client w pid (signalEvent sig si)).1 = 0 ∧
      (handle_exception client w pid (signalEvent sig si)).2.2 =
        [Action.ptrace_cont pid
          (if sig = SIGPWR_NUM ∨ sig = SIGXCPU_NUM then sig else 0)] ∧
      thread_is_stopped (handle_exception client w pid
        (signalEvent sig si)).2.1.dbg pid = false := by
  intro client w pid sig si s hcfg h5 h19 h20 h18 hts hmode
  have hconf : get_signal_config w.dbg sig = ⟨false, false⟩ := by
    simp [get_signal_config, hcfg]
  refine ⟨hconf, ?_, ?_, ?_⟩ <;>
    simp [handle_exception, handle_signal_default, signal_default_continue,
      signalEvent, hconf, hts, hmode, h5, h19, h20, h18, thread_is_stopped,
      World.setDbg, alist_find_set_self, PTRACE_EVENT_CLONE, PTRACE_EVENT_STOP]

/-- Witness for the C10 theorem: SIGUSR1 (10), unconfigured, is
suppressed; SIGPWR (30), unconfigured, is delivered.  Both resume
without notification. -/
theorem c10_default_signal_disposition_witness :
    (get_signal_config (baseWorld 100 zeroRegs (fun _ => none)).dbg 10 =
      ⟨false, false⟩ ∧
     (handle_exception (fun _ => true) (baseWorld 100 zeroRegs (fun _ => none))
       100 (signalEvent 10 none)).1 = 0 ∧
     (handle_exception (fun _ => true) (baseWorld 100 zeroRegs (fun _ => none))
       100 (signalEvent 10 none)).2.2 =
       [Action.ptrace_cont 100
         (if (10 : Int) = SIGPWR_NUM ∨ (10 : Int) = SIGXCPU_NUM then 10 else 0)] ∧
     thread_is_stopped (handle_exception (fun _ => true)
       (baseWorld 100 zeroRegs (fun _ => none)) 100
       (signalEvent 10 none)).2.1.dbg 100 = false) ∧
    (handle_exception (fun _ => true) (baseWorld 100 zeroRegs (fun _ => none))
       100 (signalEvent 30 none)).2.2 =
      [Action.ptrace_cont 100
        (if (30 : Int) = SIGPWR_NUM ∨ (30 : Int) = SIGXCPU_NUM then 30 else 0)] :=
  ⟨c10_default_signal_disposition (fun _ => true)
     (baseWorld 100 zeroRegs (fun _ => none)) 100 10 none stoppedThreadState
     (by decide) (by decide) (by decide) (by decide) (by decide) (by decide)
     (by decide),
   (c10_default_signal_disposition (fun _ => true)
     (baseWorld 100 zeroRegs (fun _ => none)) 100 30 none stoppedThreadState
     (by decide) (by decide) (by decide) (by decide) (by decide) (by decide)
     (by decide)).2.2.1⟩

end DynaDbg
